import Mathlib

/-!
# Verification of the MediaManager orchestration core

A shallow embedding of `src/src/main/webapp/js/media_manager.js` (the
`MediaManager` class of the antmedia_webrtc_adaptor repository).

Modelling conventions, used consistently below:

* JavaScript objects that matter to the claims (media tracks, streams, gain
  nodes, timers, the transport sender registry) become plain Lean data.
  A `MediaStream` is a list of tracks; object identity of a track is
  modelled by its numeric id `tid`, and mutating a track (stop, enable,
  onended) is propagated to every field of the state that holds a copy of
  that id, which simulates the shared JavaScript heap.
* Methods of the class become functions in a monad `M` that threads the
  instance state, accumulates a trace of externally visible events
  (track stops, device acquisitions, sender replacements, timer starts and
  clears, user callbacks), and can abort with a named error — the shallow
  counterpart of a JavaScript throw / promise rejection.
* `async` methods that the source calls *without* `await` (fire-and-forget)
  are wrapped in `discardErr`: their synchronous state effects happen, their
  rejection is unobservable to the caller, exactly as in the single-threaded
  event-loop semantics for a callee whose rejection nobody awaits.
* Platform capabilities (getUserMedia, getDisplayMedia, enumerateDevices,
  the return value of the error callback) are an explicit `Env` oracle.
* Reading an identifier that is not declared in scope (the source does this
  in `getDisplayMedia` and `setAudioInputSource`) throws a `ReferenceError`
  in a JavaScript module (strict mode); writing a property on a boolean
  primitive or reading a property of `undefined`/`null` throws a
  `TypeError`.  Both are modelled as the corresponding `ErrName` abort.
* The recursion `getDisplayMedia → openStream → getMedia → getDisplayMedia`
  (the display-permission fallback) is genuinely unbounded in the source, so
  the knot is tied by a fuel parameter; running out of fuel produces the
  distinguished error `outOfFuel`, which therefore marks divergence.
-/

namespace MediaMgr

/-- The kind of a media track. -/
inductive Kind
  | audio
  | video
deriving DecidableEq, Repr

/-- Callbacks that can be installed as a track's `onended` handler or passed
as the `onEndedCallback` argument. `constraintsObject` records the quirk at
media_manager.js:957 where a 4-argument call to the 3-parameter
`updateAudioTrack` shifts the (truthy) constraints object into the callback
slot. -/
inductive Cb
  | screenShareStopped
  | external (n : Nat)
  | constraintsObject
deriving DecidableEq, Repr

/-- A media track.  `tid` is the identity of the underlying JavaScript
object. -/
structure Track where
  tid : Nat
  kind : Kind
  enabled : Bool := true
  stopped : Bool := false
  onended : Option Cb := none
deriving DecidableEq, Repr

/-- A `MediaStream`: an ordered list of tracks. -/
abbrev MStream : Type := List Track

/-- Named errors: the `DOMException` names the source branches on, the two
JavaScript evaluation errors its slips produce, a rejection of the external
`RTCRtpSender.replaceTrack`, and the fuel marker for divergence. -/
inductive ErrName
  | notAllowedError
  | notFoundError
  | referenceError
  | typeError
  | senderReplaceFailed
  | outOfFuel
  | otherError
deriving DecidableEq, Repr

/-- Names for `this.callback(...)` notifications. -/
inductive CallbackName
  | availableDevices
  | browserScreenShareSupported
  | screenShareStopped
  | speakingButMuted
deriving DecidableEq, Repr

/-- Names for `this.callbackError(...)` notifications. -/
inductive ErrorCbName
  | webSocketNotSupported
  | unsecureContext
  | getUserMediaNotAllowed
  | screenSharePermissionDenied
  | noActiveConnection
  | mediaConstraintVideoNotDefined
  | acquisitionError
deriving DecidableEq, Repr

/-- What a recurring `setInterval` task does. -/
inductive TimerPurpose
  | compositorDraw
  | blackFrame
  | soundLevelProvider
deriving DecidableEq, Repr

/-- An audio constraint value: `false`, `true`, or `{ deviceId: id }`. -/
inductive AConstr
  | off
  | on
  | device (id : Nat)
deriving DecidableEq, Repr

/-- A video constraint object: the `deviceId: { exact: id }` and
`facingMode` members the source reads and writes. -/
structure VObj where
  deviceId : Option Nat := none
  facingMode : Option Nat := none
deriving DecidableEq, Repr

/-- A video constraint value: `false`, `true`, or an object. -/
inductive VConstr
  | off
  | on
  | obj (o : VObj)
deriving DecidableEq, Repr

/-- A media-constraints record; `none` models an `undefined` member. -/
structure MC where
  video : Option VConstr := none
  audio : Option AConstr := none
deriving DecidableEq, Repr

/-- JavaScript truthiness of an audio constraint (`undefined` and `false`
are falsy; `true` and any object are truthy). -/
def aTruthy : Option AConstr → Bool
  | none => false
  | some .off => false
  | some _ => true

/-- JavaScript truthiness of a video constraint. -/
def vTruthy : Option VConstr → Bool
  | none => false
  | some .off => false
  | some _ => true

/-- A `GainNode` of the Web Audio graph; only its gain value is observable. -/
structure GainNode where
  gain : ℚ
deriving DecidableEq, Repr

/-- One entry of the external Track Sender Registry (the `getSender`
callback installed by the adaptor): the key `(streamId, kind)`, the track
currently bound for transport, and whether the next `replaceTrack` call
will reject (an oracle for the external platform failure). -/
structure Sender where
  streamId : Option Nat
  kind : Kind
  bound : Option Nat := none
  failNext : Bool := false
deriving DecidableEq, Repr

/-- A device reported by `enumerateDevices`. -/
inductive DevKind
  | audioinput
  | videoinput
  | otherKind
deriving DecidableEq, Repr

/-- A capture device. -/
structure Device where
  kind : DevKind
  deviceId : Nat
deriving DecidableEq, Repr

/-- A live recurring task created by `setInterval`. -/
structure Timer where
  id : Nat
  period : Nat
  purpose : TimerPurpose
deriving DecidableEq, Repr

/-- `camera_location` configuration: `top`, or anything else (treated as
bottom by the draw loop). -/
inductive CamLocation
  | top
  | bottom
deriving DecidableEq, Repr

/-- `publishMode`. -/
inductive PublishMode
  | camera
  | screen
  | screenCamera
deriving DecidableEq, Repr

/-- `audioMode`.  The field on the instance is wrapped in `Option` where
`none` models a falsy value (the source only ever tests truthiness and
string equality). -/
inductive AudioMode
  | microphone
  | system
  | systemMicrophone
deriving DecidableEq, Repr

/-- Externally visible events emitted while a method runs, in order. -/
inductive Event
  | stopTrack (tid : Nat)
  | acquireUserMedia (video : Option VConstr) (audio : Option AConstr)
  | acquireDisplayMedia
  | enumerateDevs
  | senderReplace (kind : Kind) (tid : Option Nat)
  | callback (n : CallbackName)
  | callbackError (n : ErrorCbName)
  | startInterval (id : Nat) (period : Nat) (purpose : TimerPurpose)
  | clearTimer (id : Nat)
  | registerDeviceChangeListener
  | previewBound
  | soundMeterConnected
  | alertShown
deriving DecidableEq, Repr

/-- The mutable instance state of a `MediaManager`, restricted to the fields
the analysed methods read or write.  `timers`, `clearedTimers` and
`nextTimerId` model the browser's interval table: `timers` is the set of
currently live recurring tasks, `clearedTimers` records every id ever passed
to `clearInterval`, and ids are never reused. -/
structure MMState where
  camera_location : CamLocation := .top
  camera_margin : ℚ := 15
  camera_percent : ℚ := 15
  mediaConstraints : Option MC := none
  publishStreamId : Option Nat := none
  localStream : Option MStream := none
  publishMode : PublishMode := .camera
  audioMode : Option AudioMode := some .systemMicrophone
  currentVolume : Option ℚ := none
  previousAudioTrack : Option Track := none
  desktopStream : Option MStream := none
  smallVideoTrack : Option Track := none
  primaryAudioTrackGainNode : Option GainNode := none
  secondaryAudioTrackGainNode : Option GainNode := none
  blackFrameTimer : Option Nat := none
  isMuted : Bool := false
  cameraEnabled : Bool := true
  soundLevelProviderId : Option Nat := none
  localStreamSoundMeter : Bool := false
  localVideoPresent : Bool := false
  replacementStream : Option MStream := none
  tempTracks : List Track := []
  -- `this.inputDeviceNotFoundLimit` is read in `getDevices` but never
  -- initialised anywhere in the class: `none` models `undefined`, and
  -- `undefined < 2` is `false` in JavaScript.
  inputDeviceNotFoundLimit : Option Nat := none
  audioContextCount : Nat := 1
  senders : List Sender := []
  timers : List Timer := []
  clearedTimers : List Nat := []
  nextTimerId : Nat := 0
  nextTrackId : Nat := 100
  initialized : Bool := false
deriving DecidableEq, Repr

/-- The oracle for the platform boundary: results of the next user-media /
display-media / device-enumeration requests, the value returned by the
caller's error callback for `ScreenSharePermissionDenied` (`none` models the
usual `undefined` return), and browser capability flags. -/
structure Env where
  userMedia : Except ErrName MStream := .ok []
  displayMedia : Except ErrName MStream := .ok []
  enumerateResult : Except ErrName (List Device) := .ok []
  fallbackOverride : Option Bool := none
  webSocketSupported : Bool := true
  mediaDevicesDefined : Bool := true
  mediaDevicesNull : Bool := false

/-- The effect monad: state, an ordered event trace, and abort-with-error
(the shallow counterpart of throw / promise rejection). -/
def M (α : Type) : Type := MMState → Except ErrName α × MMState × List Event

/-- Monadic return for `M`. -/
def mPure {α : Type} (a : α) : M α := fun s => (.ok a, s, [])

/-- Monadic sequencing for `M`: an abort short-circuits, keeping the state
and the trace produced so far. -/
def mBind {α β : Type} (x : M α) (f : α → M β) : M β := fun s =>
  match x s with
  | (.ok a, s1, t1) =>
    match f a s1 with
    | (r, s2, t2) => (r, s2, t1 ++ t2)
  | (.error e, s1, t1) => (.error e, s1, t1)

instance : Monad M where
  pure := mPure
  bind := mBind

/-- Read the instance state. -/
def getS : M MMState := fun s => (.ok s, s, [])

/-- Replace the instance state. -/
def modifyS (f : MMState → MMState) : M Unit := fun s => (.ok (), f s, [])

/-- Emit an externally visible event. -/
def emit (e : Event) : M Unit := fun s => (.ok (), s, [e])

/-- Throw: abort the current method with a named error. -/
def throwM {α : Type} (e : ErrName) : M α := fun s => (.error e, s, [])

/-- Calling an `async` method without `await` (fire-and-forget): its state
effects and events happen, a rejection is unobservable to the caller. -/
def discardErr (m : M Unit) : M Unit := fun s =>
  match m s with
  | (_, s1, t1) => (.ok (), s1, t1)

theorem bind_eq {α β : Type} (x : M α) (f : α → M β) : x >>= f = mBind x f := rfl

theorem pure_eq {α : Type} (a : α) : (pure a : M α) = mPure a := rfl

/-- `stream.getAudioTracks()`. -/
def audioTracksOf (str : MStream) : List Track :=
  str.filter (fun t => decide (t.kind = Kind.audio))

/-- `stream.getVideoTracks()`. -/
def videoTracksOf (str : MStream) : List Track :=
  str.filter (fun t => decide (t.kind = Kind.video))

/-- `stream.removeTrack(track)` (removal by object identity). -/
def removeTrackL (str : MStream) (tid : Nat) : MStream :=
  str.filter (fun t => decide (t.tid ≠ tid))

/-- Does the stream already hold the track object `tid`? -/
def containsTid (str : MStream) (tid : Nat) : Bool :=
  str.any (fun t => decide (t.tid = tid))

/-- `stream.addTrack(track)`: appends, a no-op if the track is already in
the stream. -/
def addTrackL (str : MStream) (t : Track) : MStream :=
  if containsTid str t.tid then str else str ++ [t]

/-- Apply a per-track-object mutation to every copy of the tracks the
instance state holds: this simulates the shared JavaScript heap, where
`track.stop()` is visible through every reference to the object. -/
def mapTracksEverywhere (f : Track → Track) (s : MMState) : MMState :=
  { s with
    localStream := s.localStream.map (List.map f)
    tempTracks := s.tempTracks.map f
    desktopStream := s.desktopStream.map (List.map f)
    smallVideoTrack := s.smallVideoTrack.map f
    previousAudioTrack := s.previousAudioTrack.map f
    replacementStream := s.replacementStream.map (List.map f) }

/-- `track.stop()` on the object with identity `tid`. -/
def stopTrackM (tid : Nat) : M Unit := do
  modifyS (mapTracksEverywhere
    (fun t => if t.tid = tid then { t with stopped := true } else t))
  emit (.stopTrack tid)

/-- `track.onended = cb` on the object with identity `tid`. -/
def setOnendedM (tid : Nat) (cb : Cb) : M Unit :=
  modifyS (mapTracksEverywhere
    (fun t => if t.tid = tid then { t with onended := some cb } else t))

/-- `setInterval(fn, period)`: registers a live recurring task and returns
its id.  Ids are never reused. -/
def setIntervalM (period : Nat) (purpose : TimerPurpose) : M Nat := do
  let s ← getS
  let id := s.nextTimerId
  modifyS (fun st =>
    { st with
      timers := st.timers ++ [{ id := id, period := period, purpose := purpose }]
      nextTimerId := id + 1 })
  emit (.startInterval id period purpose)
  pure id

/-- `clearInterval(id)`: the task stops firing; the id is recorded so that
"cancelled exactly once" is observable. -/
def clearIntervalM (id : Nat) : M Unit := do
  modifyS (fun st =>
    { st with
      timers := st.timers.filter (fun t => decide (t.id ≠ id))
      clearedTimers := st.clearedTimers ++ [id] })
  emit (.clearTimer id)

/-- `getMediaConstraints` (media_manager.js:328-333): a copy of
`this.mediaConstraints` (spreading `null` gives `{}`), with `audio` forced
to `false` when `this.audioMode` is falsy. -/
def getMediaConstraints (s : MMState) : MC :=
  let mc := s.mediaConstraints.getD {}
  if s.audioMode = none then { mc with audio := some .off } else mc

/-- `gotStream` (media_manager.js:571-577): replace the Local Stream and
rebind the preview surface. -/
def gotStream (stream : MStream) : M Unit := do
  modifyS (fun st => { st with localStream := some stream })
  let s ← getS
  if s.localVideoPresent then emit .previewBound else pure ()

/-- The per-track-object effect of `track.enabled = b` applied to the audio
tracks with identities in `tids` (the Local Stream's audio tracks). -/
def setAudioEnabled (b : Bool) (tids : List Nat) : Track → Track := fun t =>
  if t.tid ∈ tids ∧ t.kind = Kind.audio then { t with enabled := b } else t

/-- `muteLocalMic` (media_manager.js:1124-1131): set `isMuted`, then disable
every audio track of the Local Stream (by object identity); with no Local
Stream, report `NoActiveConnection`. -/
def muteLocalMic : M Unit := do
  modifyS (fun st => { st with isMuted := true })
  let s ← getS
  match s.localStream with
  | some ls =>
    modifyS (mapTracksEverywhere
      (setAudioEnabled false ((audioTracksOf ls).map Track.tid)))
  | none => emit (.callbackError .noActiveConnection)

/-- `unmuteLocalMic` (media_manager.js:1139-1146): symmetric to
`muteLocalMic`, enabling every audio track. -/
def unmuteLocalMic : M Unit := do
  modifyS (fun st => { st with isMuted := false })
  let s ← getS
  match s.localStream with
  | some ls =>
    modifyS (mapTracksEverywhere
      (setAudioEnabled true ((audioTracksOf ls).map Track.tid)))
  | none => emit (.callbackError .noActiveConnection)

/-- `updateLocalAudioStream` (media_manager.js:766-803).  Removes the
existing audio track of the Local Stream (parking it in `tempTracks` for a
later stop) and adds the incoming stream's first audio track; track
comparison is by object identity (`tid`).  The tail re-applies the mute
state and reconnects the sound meter. -/
def updateLocalAudioStream (stream : MStream) (cb : Option Cb) : M Unit := do
  let s ← getS
  let newA0 := (audioTracksOf stream).head?
  match s.localStream with
  | some ls => do
    let oldA := (audioTracksOf ls).head?
    -- js:772 `newAudioTrack.onended = audioTrack.onended` (object mutation)
    let newA := match oldA, newA0 with
      | some o, some n => some { n with onended := o.onended }
      | _, n => n
    match oldA with
    | some o =>
      if (newA.map Track.tid) ≠ some o.tid then do
        modifyS (fun st => { st with tempTracks := st.tempTracks ++ [o] })
        modifyS (fun st =>
          { st with localStream := st.localStream.map (fun l => removeTrackL l o.tid) })
        match newA with
        | some nt =>
          modifyS (fun st =>
            { st with localStream := st.localStream.map (fun l => addTrackL l nt) })
        | none => pure ()
      else
        match newA with
        | some nt =>
          modifyS (fun st =>
            { st with localStream := st.localStream.map (fun l => addTrackL l nt) })
        | none => pure ()
    | none =>
      match newA with
      | some nt =>
        modifyS (fun st =>
          { st with localStream := st.localStream.map (fun l => addTrackL l nt) })
      | none => pure ()
  | none => modifyS (fun st => { st with localStream := some stream })
  let s1 ← getS
  if s1.localVideoPresent then emit .previewBound else pure ()
  -- js:790 `if (onEndedCallback != null && onEndedCallback)`
  match cb with
  | some c =>
    match (audioTracksOf stream).head? with
    | some t => setOnendedM t.tid c
    | none => throwM .typeError -- `stream.getAudioTracks()[0].onended` of undefined
  | none => pure ()
  let s2 ← getS
  if s2.isMuted then muteLocalMic else unmuteLocalMic
  let s3 ← getS
  if s3.localStreamSoundMeter then emit .soundMeterConnected else pure ()

/-- First statement block of `updateLocalVideoStream` (media_manager.js:
810-812): with `stopDesktop` set and a desktop stream present, stop the
desktop source's first video track. -/
def stopDesktopStep (stopDesktop : Bool) : M Unit := do
  let s ← getS
  if stopDesktop ∧ s.desktopStream.isSome then
    match s.desktopStream with
    | some ds =>
      match (videoTracksOf ds).head? with
      | some t => stopTrackM t.tid
      | none => throwM .typeError -- `getVideoTracks()[0].stop()` of undefined
    | none => pure ()
  else pure ()

/-- Second statement block of `updateLocalVideoStream` (media_manager.js:
814-827): swap the Local Stream's video track for the incoming stream's
first video track, stopping the displaced one. -/
def swapLocalVideoStep (stream : MStream) : M Unit := do
  let s1 ← getS
  let newV := (videoTracksOf stream).head?
  match s1.localStream with
  | some ls =>
    match (videoTracksOf ls).head? with
    | some old => do
      modifyS (fun st =>
        { st with localStream := st.localStream.map (fun l => removeTrackL l old.tid) })
      stopTrackM old.tid
      match newV with
      | some nt =>
        modifyS (fun st =>
          { st with localStream := st.localStream.map (fun l => addTrackL l nt) })
      | none => throwM .typeError -- `addTrack(undefined)` throws
    | none =>
      match newV with
      | some nt =>
        modifyS (fun st =>
          { st with localStream := st.localStream.map (fun l => addTrackL l nt) })
      | none => throwM .typeError
  | none => modifyS (fun st => { st with localStream := some stream })

/-- Preview rebinding statement (media_manager.js:829-831). -/
def bindPreviewStep : M Unit := do
  let s2 ← getS
  if s2.localVideoPresent then emit .previewBound else pure ()

/-- Final statement block of `updateLocalVideoStream` (media_manager.js:
833-835): `if (onEndedCallback != null)` install the callback on the
incoming stream's first video track. -/
def setVideoOnendedStep (stream : MStream) (cb : Option Cb) : M Unit := do
  match cb with
  | some c =>
    match (videoTracksOf stream).head? with
    | some t => setOnendedM t.tid c
    | none => throwM .typeError
  | none => pure ()

/-- `updateLocalVideoStream` (media_manager.js:809-836): the statement
blocks above, in source order. -/
def updateLocalVideoStream (stream : MStream) (cb : Option Cb) (stopDesktop : Bool) :
    M Unit :=
  mBind (stopDesktopStep stopDesktop) fun _ =>
  mBind (swapLocalVideoStep stream) fun _ =>
  mBind bindPreviewStep fun _ =>
  setVideoOnendedStep stream cb

/-- `this.getSender(streamId, kind)`: look up the external Track Sender
Registry. -/
def lookupSender (s : MMState) (sid : Option Nat) (k : Kind) : Option Sender :=
  s.senders.find? (fun x => decide (x.streamId = sid) && decide (x.kind = k))

/-- The registry after a successful `replaceTrack` on the sender keyed by
`(sid, k)`: that sender's bound track becomes `newTid`. -/
def bindSender (s : MMState) (sid : Option Nat) (k : Kind) (newTid : Option Nat) :
    MMState :=
  { s with
    senders := s.senders.map (fun x =>
      if x.streamId = sid ∧ x.kind = k then { x with bound := newTid } else x) }

/-- `sender.replaceTrack(newTrack)` for a sender object previously obtained
from the registry: rejects if the platform oracle says so, otherwise
rebinds the sender's outbound track. -/
def senderReplaceTrack (snd : Sender) (newTid : Option Nat) : M Unit := do
  if snd.failNext then throwM .senderReplaceFailed
  else do
    modifyS (fun st => bindSender st snd.streamId snd.kind newTid)
    emit (.senderReplace snd.kind newTid)

/-- `updateAudioTrack` (media_manager.js:1015-1024): with a sender, `await
replaceTrack` and only then update the Local Stream; without one, update
the Local Stream directly. -/
def updateAudioTrack (stream : MStream) (sid : Option Nat) (cb : Option Cb) :
    M Unit := do
  let s ← getS
  match lookupSender s sid .audio with
  | some snd => do
    senderReplaceTrack snd ((audioTracksOf stream).head?.map Track.tid)
    updateLocalAudioStream stream cb
  | none => updateLocalAudioStream stream cb

/-- `updateVideoTrack` (media_manager.js:1034-1043): the video counterpart
of `updateAudioTrack`. -/
def updateVideoTrack (stream : MStream) (sid : Option Nat) (cb : Option Cb)
    (stopDesktop : Bool) : M Unit := do
  let s ← getS
  match lookupSender s sid .video with
  | some snd => do
    senderReplaceTrack snd ((videoTracksOf stream).head?.map Track.tid)
    updateLocalVideoStream stream cb stopDesktop
  | none => updateLocalVideoStream stream cb stopDesktop

/-- `setGainNodeStream` (media_manager.js:669-730).  With a truthy audio
constraint: rebuilds the audio context, creates the primary gain branch
whose gain is initialised from `currentVolume` when one was stored
(js:698-702, else unity), returns the destination stream (a fresh processed
audio track) with the original video and audio tracks re-added, and parks
the raw audio track (index 1 of the result's audio tracks) in
`previousAudioTrack` after stopping the previously parked one.  With a
falsy audio constraint the stream is returned untouched. -/
def setGainNodeStream (stream : MStream) : M MStream := do
  let s ← getS
  let mc := getMediaConstraints s
  if aTruthy mc.audio then do
    let vts := videoTracksOf stream
    let ats := audioTracksOf stream
    -- js:684 `this.audioContext = new AudioContext()`
    modifyS (fun st => { st with audioContextCount := st.audioContextCount + 1 })
    let s1 ← getS
    let g : ℚ := match s1.currentVolume with
      | none => 1
      | some v => v
    modifyS (fun st => { st with primaryAudioTrackGainNode := some { gain := g } })
    -- js:709 the destination stream holds one fresh processed audio track
    let s2 ← getS
    let destTrack : Track := { tid := s2.nextTrackId, kind := .audio }
    modifyS (fun st => { st with nextTrackId := st.nextTrackId + 1 })
    let controlledStream : MStream := destTrack :: (vts ++ ats)
    match s2.previousAudioTrack with
    | some p => stopTrackM p.tid
    | none => pure ()
    modifyS (fun st =>
      { st with previousAudioTrack := (audioTracksOf controlledStream).get? 1 })
    pure controlledStream
  else pure stream

/-- `mixAudioStreams` (media_manager.js:622-661).  Builds a fresh audio
context with one gain branch per origin that has an audio track; both
branches are initialised to unity gain (js:636, js:648) regardless of
`currentVolume`.  Returns the primary stream's video tracks plus the fresh
merged audio track. -/
def mixAudioStreams (stream secondStream : MStream) : M MStream := do
  let composed0 := videoTracksOf stream
  -- js:629 `this.audioContext = new AudioContext()`
  modifyS (fun st => { st with audioContextCount := st.audioContextCount + 1 })
  if (audioTracksOf stream) ≠ [] then
    modifyS (fun st => { st with primaryAudioTrackGainNode := some { gain := 1 } })
  else pure ()
  if (audioTracksOf secondStream) ≠ [] then
    modifyS (fun st => { st with secondaryAudioTrackGainNode := some { gain := 1 } })
  else pure ()
  let s ← getS
  let destTrack : Track := { tid := s.nextTrackId, kind := .audio }
  modifyS (fun st => { st with nextTrackId := st.nextTrackId + 1 })
  pure (composed0 ++ [destTrack])

/-- `setVolumeLevel` (media_manager.js:1231-1240): remember the volume and
forward it to whichever gain branches currently exist. -/
def setVolumeLevel (v : ℚ) : M Unit := do
  modifyS (fun st => { st with currentVolume := some v })
  let s ← getS
  if s.primaryAudioTrackGainNode.isSome then
    modifyS (fun st => { st with primaryAudioTrackGainNode := some { gain := v } })
  else pure ()
  let s1 ← getS
  if s1.secondaryAudioTrackGainNode.isSome then
    modifyS (fun st => { st with secondaryAudioTrackGainNode := some { gain := v } })
  else pure ()

/-- `initializeDummyFrame` (media_manager.js:1049-1052): draw on the dummy
canvas and capture it as a fresh replacement stream holding one synthetic
video track. -/
def initializeDummyFrame : M Unit := do
  let s ← getS
  let t : Track := { tid := s.nextTrackId, kind := .video }
  modifyS (fun st =>
    { st with nextTrackId := st.nextTrackId + 1, replacementStream := some [t] })

/-- First statement block of `turnOffLocalCamera` (media_manager.js:
1058-1073).  Builds the first dummy frame; with a Local Stream, clears
`cameraEnabled` and swaps the replacement stream in (fire-and-forget);
without one, reports `NoActiveConnection`.  `sid = none` models an
`undefined` streamId argument, which routes to `publishStreamId`
(js:1063-1068). -/
def turnOffSwapStep (sid : Option Nat) : M Unit := do
  initializeDummyFrame
  let s ← getS
  match s.localStream with
  | some _ => do
    let choosenId := match sid with
      | some i => some i
      | none => s.publishStreamId
    modifyS (fun st => { st with cameraEnabled := false })
    let s1 ← getS
    match s1.replacementStream with
    | some rs => discardErr (updateVideoTrack rs choosenId none true)
    | none => pure ()
  | none => emit (.callbackError .noActiveConnection)

/-- The timer statement of `turnOffLocalCamera` (media_manager.js:
1077-1081): start the 3000 ms black-frame refresh task unless one is
already live. -/
def startBlackFrameStep : M Unit := do
  let s2 ← getS
  if s2.blackFrameTimer = none then do
    let id ← setIntervalM 3000 .blackFrame
    modifyS (fun st => { st with blackFrameTimer := some id })
  else pure ()

/-- `turnOffLocalCamera` proper: the two statement blocks in source
order. -/
def turnOffLocalCamera (sid : Option Nat) : M Unit :=
  mBind (turnOffSwapStep sid) fun _ => startBlackFrameStep

/-- `closeStream` js:513-519 (first statement block): stop the parked temp
tracks and the Local Stream's tracks, clear `tempTracks`.  Note that
`closeStream` as a whole clears neither `blackFrameTimer` nor the
compositor's draw interval. -/
def stopLocalTracksStep : M Unit := do
  let s ← getS
  match s.localStream with
  | some ls => do
    s.tempTracks.forM (fun t => stopTrackM t.tid)
    (videoTracksOf ls).forM (fun t => stopTrackM t.tid)
    (audioTracksOf ls).forM (fun t => stopTrackM t.tid)
    modifyS (fun st => { st with tempTracks := [] })
  | none => pure ()

/-- `closeStream` js:523-524: stop the small video track and the parked raw
audio track (`this.videoTrack?.stop()` / `this.audioTrack?.stop()` at
js:521-522 read fields never assigned anywhere in the class, so the
optional chaining makes them no-ops). -/
def stopStrayTracksStep : M Unit := do
  let s1 ← getS
  match s1.smallVideoTrack with
  | some t => stopTrackM t.tid
  | none => pure ()
  let s2 ← getS
  match s2.previousAudioTrack with
  | some t => stopTrackM t.tid
  | none => pure ()

/-- `closeStream` js:526-529: clear (only) the sound-level interval. -/
def clearSoundLevelStep : M Unit := do
  let s3 ← getS
  match s3.soundLevelProviderId with
  | some id => do
    clearIntervalM id
    modifyS (fun st => { st with soundLevelProviderId := none })
  | none => pure ()

/-- `closeStream` proper: the statement blocks in source order, ending with
`this.localStream = null`. -/
def closeStream : M Unit :=
  mBind stopLocalTracksStep fun _ =>
  mBind stopStrayTracksStep fun _ =>
  mBind clearSoundLevelStep fun _ =>
  modifyS (fun st => { st with localStream := none })

/-- `enableAudioLevelForLocalStream` (media_manager.js:1249-1256): connect
the sound meter and start the recurring level provider. -/
def enableAudioLevelForLocalStream (period : Nat) : M Unit := do
  modifyS (fun st => { st with localStreamSoundMeter := true })
  emit .soundMeterConnected
  let id ← setIntervalM period .soundLevelProvider
  modifyS (fun st => { st with soundLevelProviderId := some id })

/-- `setAudioInputSource` (media_manager.js:870-888).  Both branches of the
source dereference identifiers that do not exist: with a falsy audio
constraint it calls `this.devices.getAudioTracks()` where `this.devices` is
never assigned anywhere in the class (property access on `undefined`, a
TypeError); with a truthy audio constraint it evaluates the undeclared
identifier `deviceStream` as an argument of `prepareAudioStream` (js:884),
a ReferenceError in a strict-mode module.  Either way the async method
rejects before mutating any state. -/
def setAudioInputSource (mc : MC) : M Unit :=
  if aTruthy mc.audio then throwM .referenceError else throwM .typeError

/-- `switchAudioInputSource` (media_manager.js:845-864).  Stops the Local
Stream's current audio track *first* (js:846-852, "in some android devices
need to close the current camera stream"), updates the stored audio
constraint, then fires `setAudioInputSource` without awaiting it.  A `null`
Local Stream makes the very first property access throw. -/
def switchAudioInputSource (_sid : Option Nat) (devId : Option Nat) : M Unit := do
  let s ← getS
  match s.localStream with
  | none => throwM .typeError -- `this.localStream.getAudioTracks()` of null
  | some ls => do
    match (audioTracksOf ls).head? with
    | some t => stopTrackM t.tid
    | none => pure () -- console.warn only
    match devId with
    | some id => do
      let s1 ← getS
      match s1.mediaConstraints with
      | none => throwM .typeError -- `this.mediaConstraints.audio` of null
      | some mc =>
        match mc.audio with
        | some .on =>
          modifyS (fun st =>
            { st with mediaConstraints := some { mc with audio := some (.device id) } })
        | some (.device _) =>
          modifyS (fun st =>
            { st with mediaConstraints := some { mc with audio := some (.device id) } })
        | some .off => throwM .typeError -- strict mode: property write on `false`
        | none => throwM .typeError -- property write on `undefined`
      discardErr (setAudioInputSource { video := some .off, audio := some (.device id) })
    | none => do
      let s1 ← getS
      discardErr (setAudioInputSource (getMediaConstraints s1))

/-- One tick of the compositor draw task (the `setInterval` closure at
media_manager.js:305-325): canvas resized to the screen source, overlay
width as `camera_percent` of the screen width, right-aligned with
`camera_margin`, vertical position by `camera_location`. -/
def compositorDrawTick (camera_percent camera_margin : ℚ)
    (camera_location : CamLocation) (screenW screenH camVidW camVidH : ℚ) :
    (ℚ × ℚ) × (ℚ × ℚ) × (ℚ × ℚ) :=
  let canvasW := screenW
  let canvasH := screenH
  let cameraWidth := screenW * (camera_percent / 100)
  let cameraHeight := (camVidH / camVidW) * cameraWidth
  let positionX := canvasW - cameraWidth - camera_margin
  let positionY :=
    if camera_location = CamLocation.top then camera_margin
    else canvasH - cameraHeight - camera_margin
  ((canvasW, canvasH), (cameraWidth, cameraHeight), (positionX, positionY))

/-!
The display-permission fallback (media_manager.js:465) and the no-audio
retry (js:244) re-enter `openStream`, which re-enters `getMedia` and hence
`getDisplayMedia`: the recursion is genuinely unbounded in the source.  The
definitions below therefore take the re-entry into `openStream` as an
explicit continuation `osr`; the knot is tied by `openStream`, structurally
recursive on a fuel bound, and exhausting the fuel aborts with the
distinguished marker `outOfFuel`.  An `Option MStream` result models an
async method resolving with either a stream or `undefined`.
-/

/-- `getUserMedia` (media_manager.js:426-442).  Without `catch_error` a
rejection propagates.  With it, `NotFoundError` triggers `getDevices` and
then falls off the end of the catch block — the async method resolves with
`undefined` (`none`); any other error is reported and rethrown. -/
def getUserMediaF (osr : MC → M (Option MStream)) (env : Env) (mc : MC)
    (catchError : Bool) (getDevicesImpl : (MC → M (Option MStream)) → Env → M Unit) :
    M (Option MStream) := do
  emit (.acquireUserMedia mc.video mc.audio)
  if catchError then
    match env.userMedia with
    | .ok str => pure (some str)
    | .error e =>
      if e = .notFoundError then do
        getDevicesImpl osr env
        pure none
      else do
        emit (.callbackError .acquisitionError)
        throwM e
  else
    match env.userMedia with
    | .ok str => pure (some str)
    | .error e => throwM e

/-- `getDevices` (media_manager.js:216-257).  Enumerates devices and raises
the `available_devices` callback.  The retry branch compares
`this.inputDeviceNotFoundLimit` — a field that is never initialised
anywhere in the class — so `undefined < 2` is `false` and the openStream
retry is dead code; it is modelled anyway (`none` models `undefined`, and
incrementing it keeps `none`, as `undefined++` is `NaN`).  Enumeration
failures are caught and only logged. -/
def getDevicesF (osr : MC → M (Option MStream)) (env : Env) : M Unit := do
  emit .enumerateDevs
  match env.enumerateResult with
  | .error _ => pure ()
  | .ok devices => do
    let checkAudio := devices.any (fun d => decide (d.kind = DevKind.audioinput))
    let checkVideo := devices.any (fun d => decide (d.kind = DevKind.videoinput))
    emit (.callback .availableDevices)
    let s ← getS
    if checkAudio = false ∧ s.localStream = none then
      match s.inputDeviceNotFoundLimit with
      | some n =>
        if n < 2 then
          if checkVideo then do
            discardErr (do
              let _ ← osr { video := some .on, audio := some .off }
              pure ())
            modifyS (fun st =>
              { st with inputDeviceNotFoundLimit :=
                st.inputDeviceNotFoundLimit.map (· + 1) })
          else emit .alertShown
        else emit .alertShown
      | none => emit .alertShown -- `undefined < 2` is false
    else pure ()

/-- `getDisplayMedia` (media_manager.js:450-474).  On `NotAllowedError` it
raises `ScreenSharePermissionDenied`; unless the caller's callback returned
`false`, it then either re-enters `openStream({video:true, audio:true})`
(no Local Stream) or evaluates `this.switchVideoCameraCapture(streamId)` —
but `streamId` is not declared anywhere in the enclosing scope (the method
has only a `mediaConstraints` parameter), so that branch throws a
ReferenceError.  All other failures are rethrown. -/
def getDisplayMediaF (osr : MC → M (Option MStream)) (env : Env) (_mc : MC) :
    M (Option MStream) := do
  emit .acquireDisplayMedia
  match env.displayMedia with
  | .ok str => pure (some str)
  | .error e =>
    if e = .notAllowedError then do
      emit (.callbackError .screenSharePermissionDenied)
      if env.fallbackOverride ≠ some false then do
        let s ← getS
        if s.localStream = none then
          osr { video := some .on, audio := some .on }
        else
          throwM .referenceError -- undeclared identifier `streamId` (js:467)
      else throwM e
    else throwM e

/-- `getMedia` (media_manager.js:480-489): route by publish mode. -/
def getMediaF (osr : MC → M (Option MStream)) (env : Env) (mc : MC) :
    M (Option MStream) := do
  let s ← getS
  if s.publishMode = PublishMode.screenCamera ∨ s.publishMode = PublishMode.screen then
    getDisplayMediaF osr env mc
  else
    getUserMediaF osr env mc true getDevicesF

/-- `prepareAudioStream` (media_manager.js:392-417): in `microphone` mode,
acquire the mic and wrap it in a gain branch; in `system` mode, use the
device stream's own audio; in `system+microphone` mode, additionally mix
the two origins.  Any other `audioMode` value falls through and returns the
device stream.  An `undefined` mic stream (NotFound path) poisons the
callee at its first property access. -/
def prepareAudioStreamF (osr : MC → M (Option MStream)) (env : Env)
    (deviceStream : MStream) (audioConstraint : AConstr) : M MStream := do
  let s ← getS
  match s.audioMode with
  | some .microphone => do
    let as? ← getUserMediaF osr env { audio := some audioConstraint } true getDevicesF
    match as? with
    | some astr => setGainNodeStream astr
    | none => throwM .typeError -- `stream.getVideoTracks()` of undefined
  | some .system => pure deviceStream
  | some .systemMicrophone => do
    let as? ← getUserMediaF osr env { audio := some audioConstraint } true getDevicesF
    match as? with
    | some astr => do
      let g ← setGainNodeStream astr
      mixAudioStreams deviceStream g
    | none => throwM .typeError
  | none => pure deviceStream

/-- `setDesktopWithCameraSource` (media_manager.js:275-326).  Stores the
screen stream, acquires the camera, keeps its first video track as
`smallVideoTrack`, captures the compositing canvas as a fresh synthetic
video stream, routes that stream to `gotStream`/`updateVideoTrack`, and
starts the 66 ms draw interval — whose id is DISCARDED: `setInterval`'s
return value is never stored, so nothing can ever clear this task. -/
def setDesktopWithCameraSourceF (osr : MC → M (Option MStream)) (env : Env)
    (stream : MStream) (sid : Option Nat) (cb : Cb) : M Unit := do
  modifyS (fun st => { st with desktopStream := some stream })
  let cam? ← getUserMediaF osr env { video := some .on, audio := some .off } true getDevicesF
  match cam? with
  | none => throwM .typeError -- `cameraStream.getVideoTracks()` of undefined
  | some cameraStream => do
    modifyS (fun st => { st with smallVideoTrack := (videoTracksOf cameraStream).head? })
    let s ← getS
    let canvasTrack : Track := { tid := s.nextTrackId, kind := .video }
    modifyS (fun st => { st with nextTrackId := st.nextTrackId + 1 })
    let canvasStream : MStream := [canvasTrack]
    let s1 ← getS
    if s1.localStream = none then gotStream canvasStream
    else discardErr (updateVideoTrack canvasStream sid (some cb) false)
    let s2 ← getS
    modifyS (fun st =>
      { st with
        timers := st.timers ++ [{ id := st.nextTimerId, period := 66,
                                  purpose := .compositorDraw }]
        nextTimerId := st.nextTimerId + 1 })
    emit (.startInterval s2.nextTimerId 66 .compositorDraw)

/-- `prepareStreamTracks` (media_manager.js:356-390).  In camera mode the
device stream's audio track is stopped and removed; screen modes route the
video through `updateVideoTrack` / `setDesktopWithCameraSource`
(fire-and-forget); a truthy audio constraint prepares the audio stream and
either routes it through `updateAudioTrack` (screen modes, fire-and-forget)
or adds it to the device stream (camera mode); finally `gotStream`
publishes the device stream.  The source's first parameter
(`mediaConstraints`) is never read in the body and is omitted here.  A
`none` device stream models `undefined` reaching this method, which throws
at the first property access. -/
def prepareStreamTracksF (osr : MC → M (Option MStream)) (env : Env)
    (audioConstraint : Option AConstr) (deviceStream? : Option MStream)
    (sid : Option Nat) : M MStream := do
  match deviceStream? with
  | none => throwM .typeError -- `deviceStream.getAudioTracks()` of undefined
  | some ds0 => do
    let s ← getS
    let mut ds := ds0
    let ats := audioTracksOf ds
    if ats ≠ [] ∧ s.publishMode = PublishMode.camera then do
      match ats.head? with
      | some t => do
        stopTrackM t.tid
        ds := removeTrackL ds t.tid
      | none => pure ()
    let s1 ← getS
    if s1.publishMode = PublishMode.screen then
      discardErr (updateVideoTrack ds sid (some .screenShareStopped) true)
    else if s1.publishMode = PublishMode.screenCamera then
      discardErr (setDesktopWithCameraSourceF osr env ds sid .screenShareStopped)
    else pure ()
    if aTruthy audioConstraint then do
      let astream ← prepareAudioStreamF osr env ds (audioConstraint.getD .off)
      let s2 ← getS
      if s2.publishMode ≠ PublishMode.camera then
        discardErr (updateAudioTrack astream sid none)
      else
        match (audioTracksOf astream).head? with
        | some t => ds := addTrackL ds t
        | none => throwM .typeError -- `addTrack(undefined)` throws
    else pure ()
    gotStream ds
    pure ds

/-- `prepareStream` (media_manager.js:335-340): read the effective audio
constraint, stop the small video track if one exists, and hand off to
`prepareStreamTracks`. -/
def prepareStreamF (osr : MC → M (Option MStream)) (env : Env)
    (stream? : Option MStream) (sid : Option Nat) : M MStream := do
  let s ← getS
  let mc := getMediaConstraints s
  match s.smallVideoTrack with
  | some t => stopTrackM t.tid
  | none => pure ()
  prepareStreamTracksF osr env mc.audio stream? sid

/-- The body of `openStream` (media_manager.js:494-507), parameterised by
the re-entry continuation: store the constraints, and either acquire and
prepare (video constraint present) or drop the Local Stream and raise
`media_constraint_video_not_defined` (resolving with `undefined`). -/
def openStreamBody (osr : MC → M (Option MStream)) (env : Env) (mc : MC)
    (sid : Option Nat) : M (Option MStream) := do
  modifyS (fun st => { st with mediaConstraints := some mc })
  let s ← getS
  let mcon := getMediaConstraints s
  if mcon.video ≠ none then do
    let stream? ← getMediaF osr env mcon
    let r ← prepareStreamF osr env stream? sid
    pure (some r)
  else do
    modifyS (fun st => { st with localStream := none })
    emit (.callbackError .mediaConstraintVideoNotDefined)
    pure none

/-- `openStream`, with the recursion bounded by fuel; the re-entry sites
(display fallback, device retry) call it with one argument, so the
continuation re-enters with an `undefined` streamId. -/
def openStream : Nat → Env → MC → Option Nat → M (Option MStream)
  | 0, _env, _mc, _sid => throwM .outOfFuel
  | Nat.succ n, env, mc, sid =>
    openStreamBody (fun mc2 => openStream n env mc2 none) env mc sid

/-- The `openStream` re-entry continuation at a given fuel level. -/
def osrOf (fuel : Nat) (env : Env) : MC → M (Option MStream) :=
  fun mc => openStream fuel env mc none

/-- `setVideoCameraSource` (media_manager.js:946-967).  Acquires the new
camera stream; when returning from screen share with a live secondary gain
branch, rebuilds the mic-only gain stream and fires `updateAudioTrack` with
four arguments — shifting the constraints object into the callback slot
(js:957); then either fires `updateVideoTrack` or, with the camera
disabled, runs `turnOffLocalCamera()` (no streamId argument).  An
`undefined` acquired stream only throws where the source would dereference
it. -/
def setVideoCameraSource (fuel : Nat) (env : Env) (sid : Option Nat) (mc : MC)
    (cb : Option Cb) (stopDesktop : Bool) : M (Option MStream) := do
  let str? ← getUserMediaF (osrOf fuel env) env mc true getDevicesF
  match str? with
  | none => do
    let s ← getS
    if stopDesktop ∧ s.secondaryAudioTrackGainNode.isSome then
      throwM .typeError -- `stream.getAudioTracks()` of undefined
    else do
      let s1 ← getS
      if s1.cameraEnabled then
        throwM .typeError -- `stream.getVideoTracks()` of undefined in updateVideoTrack
      else do
        turnOffLocalCamera none
        pure none
  | some str0 => do
    let s ← getS
    let mut str := str0
    if stopDesktop ∧ s.secondaryAudioTrackGainNode.isSome ∧
        (audioTracksOf str0) ≠ [] then do
      modifyS (fun st => { st with secondaryAudioTrackGainNode := none })
      let g ← setGainNodeStream str0
      str := g
      discardErr (updateAudioTrack g sid (some .constraintsObject))
    let s1 ← getS
    if s1.cameraEnabled then
      discardErr (updateVideoTrack str sid cb stopDesktop)
    else turnOffLocalCamera none
    pure (some str)

/-- `switchVideoCameraCapture` (media_manager.js:900-940).  Stops the Local
Stream's current video track *first* (js:901-907), sets camera publish
mode, enumerates devices and — only when the id matches a video input —
updates the stored video constraint, then fires `setVideoCameraSource`
without awaiting it and resolves with the device id. -/
def switchVideoCameraCapture (fuel : Nat) (env : Env) (sid : Option Nat)
    (devId : Option Nat) : M (Option Nat) := do
  let s ← getS
  match s.localStream with
  | none => throwM .typeError -- `this.localStream.getVideoTracks()` of null
  | some ls => do
    match (videoTracksOf ls).head? with
    | some t => stopTrackM t.tid
    | none => pure () -- console.warn only
    modifyS (fun st => { st with publishMode := .camera })
    emit .enumerateDevs
    match env.enumerateResult with
    | .error e => throwM e
    | .ok devices => do
      match devices.find? (fun d =>
          decide (d.kind = DevKind.videoinput) && decide (some d.deviceId = devId)) with
      | some _ => do
        let s1 ← getS
        match s1.mediaConstraints with
        | none => throwM .typeError -- `this.mediaConstraints.video` of null
        | some mc =>
          match mc.video with
          | some .on =>
            let vnew : VConstr := .obj { deviceId := devId }
            modifyS (fun st =>
              { st with mediaConstraints := some { mc with video := some vnew } })
          | some (.obj o) =>
            let vnew : VConstr := .obj { o with deviceId := devId }
            modifyS (fun st =>
              { st with mediaConstraints := some { mc with video := some vnew } })
          | some .off => throwM .typeError -- strict mode: property write on `false`
          | none => throwM .typeError -- property write on `undefined`
      | none => pure () -- no matching device: leave the constraints alone
      let s2 ← getS
      discardErr (do
        let _ ← setVideoCameraSource fuel env sid
          { video := (getMediaConstraints s2).video } none true
        pure ())
      pure devId

/-- `switchVideoCameraFacingMode` (media_manager.js:978-1005).  Stops the
Local Stream's current video track *first*, deletes any stored deviceId,
merges the facing mode into the video constraint object (`Object.assign`
over a primitive contributes no properties), sets camera publish mode, and
fires `setVideoCameraSource`. -/
def switchVideoCameraFacingMode (fuel : Nat) (env : Env) (sid : Option Nat)
    (facing : Nat) : M Unit := do
  let s ← getS
  match s.localStream with
  | none => throwM .typeError
  | some ls => do
    match (videoTracksOf ls).head? with
    | some t => stopTrackM t.tid
    | none => pure ()
    let s1 ← getS
    match s1.mediaConstraints with
    | none => throwM .typeError -- `this.mediaConstraints.video` of null
    | some mc => do
      -- js:989-994 delete deviceId when the video constraint object has one
      let v1 : Option VConstr := match mc.video with
        | some (.obj o) =>
          if o.deviceId ≠ none then some (.obj { o with deviceId := none })
          else some (.obj o)
        | other => other
      -- js:996-1000 `Object.assign({}, video, { facingMode })`
      let newObj : VObj := match v1 with
        | some (.obj o) => { o with facingMode := some facing }
        | _ => { facingMode := some facing }
      modifyS (fun st =>
        { st with mediaConstraints := some { mc with video := some (.obj newObj) } })
      modifyS (fun st => { st with publishMode := .camera })
      let s2 ← getS
      discardErr (do
        let _ ← setVideoCameraSource fuel env sid
          { video := (getMediaConstraints s2).video } none true
        pure ())

/-- `switchDesktopCapture` (media_manager.js:738-745): set screen publish
mode, then acquire and prepare. -/
def switchDesktopCapture (fuel : Nat) (env : Env) (sid : Option Nat) :
    M MStream := do
  modifyS (fun st => { st with publishMode := .screen })
  let s ← getS
  let mc := getMediaConstraints s
  let stream? ← getMediaF (osrOf fuel env) env mc
  prepareStreamF (osrOf fuel env) env stream? sid

/-- `switchDesktopCaptureWithCamera` (media_manager.js:753-760): set
screen+camera publish mode, then acquire and prepare. -/
def switchDesktopCaptureWithCamera (fuel : Nat) (env : Env) (sid : Option Nat) :
    M MStream := do
  modifyS (fun st => { st with publishMode := .screenCamera })
  let s ← getS
  let mc := getMediaConstraints s
  let stream? ← getMediaF (osrOf fuel env) env mc
  prepareStreamF (osrOf fuel env) env stream? sid

/-- The timer statement of `turnOnLocalCamera` (media_manager.js:
1091-1094): clear the black-frame refresh task, if one is live; the clear
happens before the camera is re-acquired (the reacquisition step below,
js:1096-1117, publishes the fresh stream or swaps it in, setting
`cameraEnabled`). -/
def clearBlackFrameStep : M Unit := do
  let s ← getS
  match s.blackFrameTimer with
  | some id => do
    clearIntervalM id
    modifyS (fun st => { st with blackFrameTimer := none })
  | none => pure ()

/-- The reacquisition statement block of `turnOnLocalCamera`
(media_manager.js:1096-1117). -/
def turnOnReacquireStep (fuel : Nat) (env : Env) (sid : Option Nat) :
    M (Option MStream) := do
  let s ← getS
  let mc := getMediaConstraints s
  let s1 ← getS
  match s1.localStream with
  | none => do
    let str? ← getUserMediaF (osrOf fuel env) env { video := mc.video } false getDevicesF
    match str? with
    | some str => do
      gotStream str
      pure (some str)
    | none => pure none -- unreachable: without the catch wrapper errors throw
  | some _ => do
    let str? ← getUserMediaF (osrOf fuel env) env { video := mc.video } false getDevicesF
    match str? with
    | some str => do
      let choosenId := match sid with
        | some i => some i
        | none => s1.publishStreamId
      modifyS (fun st => { st with cameraEnabled := true })
      discardErr (updateVideoTrack str choosenId none true)
      pure (some str)
    | none => pure none

/-- `turnOnLocalCamera` proper: clear the black-frame timer first, then
reacquire. -/
def turnOnLocalCamera (fuel : Nat) (env : Env) (sid : Option Nat) :
    M (Option MStream) :=
  mBind clearBlackFrameStep fun _ => turnOnReacquireStep fuel env sid

/-- `checkWebRTCPermissions` (media_manager.js:194-211): report the first
failing capability check, if any. -/
def checkWebRTCPermissions (env : Env) : M Unit := do
  if env.webSocketSupported = false then emit (.callbackError .webSocketNotSupported)
  else if env.mediaDevicesDefined = false then emit (.callbackError .unsecureContext)
  else if env.mediaDevicesNull then emit (.callbackError .getUserMediaNotAllowed)
  else pure ()

/-- `initialize` (media_manager.js:177-189).  The guard is
`if (!this.initialized) return false`: the method returns `false` and does
nothing unless `this.initialized` is *already* true — and the only
assignment making it true sits below this guard. -/
def initializeMedia (fuel : Nat) (env : Env) : M Bool := do
  let s ← getS
  if s.initialized = false then pure false
  else do
    checkWebRTCPermissions env
    getDevicesF (osrOf fuel env) env
    emit .registerDeviceChangeListener
    modifyS (fun st => { st with initialized := true })
    pure true

/-- The user-parameter bag passed to the constructor.  The source copies
every own property of `userParameters` onto `this` (js:75-79) *before* the
remaining fields are assigned, so only fields assigned above that loop can
actually be overridden; in particular an `initialized` entry is overwritten
by `this.initialized = false` at js:171. -/
structure UserParams where
  camera_location : Option CamLocation := none
  camera_margin : Option ℚ := none
  camera_percent : Option ℚ := none
  publishMode : Option PublishMode := none
  audioMode : Option (Option AudioMode) := none
  initialized : Option Bool := none
deriving DecidableEq, Repr

/-- The `MediaManager` constructor (media_manager.js:9-172), restricted to
the modelled fields: defaults, then user-parameter overrides for the fields
declared before the override loop, then the fixed later assignments —
ending with `this.initialized = false` regardless of any override.
`senders` seeds the external registry oracle and `localVideoPresent`
models whether `getElementById` found a preview element. -/
def mkMediaManager (p : UserParams) (senders : List Sender)
    (localVideoPresent : Bool) : MMState :=
  { camera_location := p.camera_location.getD .top
    camera_margin := p.camera_margin.getD 15
    camera_percent := p.camera_percent.getD 15
    publishMode := p.publishMode.getD .camera
    audioMode := p.audioMode.getD (some .systemMicrophone)
    mediaConstraints := none
    publishStreamId := none
    localStream := none
    currentVolume := none
    previousAudioTrack := none
    desktopStream := none
    smallVideoTrack := none
    primaryAudioTrackGainNode := none
    secondaryAudioTrackGainNode := none
    blackFrameTimer := none
    isMuted := false
    cameraEnabled := true
    soundLevelProviderId := none
    localStreamSoundMeter := false
    localVideoPresent := localVideoPresent
    replacementStream := none
    tempTracks := []
    inputDeviceNotFoundLimit := none
    audioContextCount := 1
    senders := senders
    timers := []
    clearedTimers := []
    nextTimerId := 0
    nextTrackId := 100
    initialized := false }

/-- The public operations quantified over in the temporal claims. -/
inductive Op
  | opTurnOff (sid : Option Nat)
  | opTurnOn (sid : Option Nat)
  | opMute
  | opUnmute
  | opCloseStream
  | opSwitchAudio (sid : Option Nat) (devId : Option Nat)
  | opSwitchVideo (sid : Option Nat) (devId : Option Nat)
  | opSetVolume (v : ℚ)
deriving DecidableEq, Repr

/-- Run one public operation (discarding its return value). -/
def applyOp (fuel : Nat) (env : Env) : Op → M Unit
  | .opTurnOff sid => turnOffLocalCamera sid
  | .opTurnOn sid => do
    let _ ← turnOnLocalCamera fuel env sid
    pure ()
  | .opMute => muteLocalMic
  | .opUnmute => unmuteLocalMic
  | .opCloseStream => closeStream
  | .opSwitchAudio sid devId => switchAudioInputSource sid devId
  | .opSwitchVideo sid devId => do
    let _ ← switchVideoCameraCapture fuel env sid devId
    pure ()
  | .opSetVolume v => setVolumeLevel v

/-! ## Concrete fixtures used by witnesses and counterexamples -/

/-- An audio track with a given id and enabled flag. -/
def aTrack (i : Nat) (en : Bool) : Track := { tid := i, kind := .audio, enabled := en }

/-- A video track with a given id. -/
def vTrack (i : Nat) : Track := { tid := i, kind := .video }

/-- A state with an open Local Stream (one video track `1`, one audio track
`2`), stored constraints, and a publish stream id. -/
def sBase : MMState :=
  { mediaConstraints := some { video := some .on, audio := some .on }
    localStream := some [vTrack 1, aTrack 2 true]
    publishStreamId := some 7 }

/-- A platform oracle that successfully yields a camera/mic stream and one
video input device. -/
def envOk : Env :=
  { userMedia := .ok [vTrack 10, aTrack 11 true]
    enumerateResult := .ok [{ kind := .videoinput, deviceId := 5 }] }

/-- A platform oracle whose display-capture requests are rejected with
`NotAllowedError`, persistently; the error callback returns `undefined`. -/
def envDeny : Env := { displayMedia := .error .notAllowedError }

/-- A freshly constructed manager (no overrides, no senders, no preview
element). -/
def sFresh : MMState := mkMediaManager {} [] false

/-- A fresh manager that has stored `{video: true, audio: true}`
constraints, before any stream was opened. -/
def sPre : MMState :=
  { sFresh with mediaConstraints := some { video := some .on, audio := some .on } }

/-- `sBase` with a registry entry for `(7, audio)` whose next `replaceTrack`
rejects. -/
def sSenderFail : MMState :=
  { sBase with senders := [{ streamId := some 7, kind := .audio, failNext := true }] }

/-- `sBase` with a registry entry for `(7, audio)` that accepts. -/
def sSenderOk : MMState :=
  { sBase with senders := [{ streamId := some 7, kind := .audio }] }

/-- Is a trace event a device/display acquisition? -/
def isAcquireEvent : Event → Bool
  | .acquireUserMedia _ _ => true
  | .acquireDisplayMedia => true
  | _ => false

/-- Is a trace event a user-media (standard capture) acquisition? -/
def isUserAcquireEvent : Event → Bool
  | .acquireUserMedia _ _ => true
  | _ => false

/-- The property asserted by the ordering claim, as a decidable check on a
trace: every `stopTrack tid` event is preceded by some acquisition event. -/
def stopsOnlyAfterAcquire (tid : Nat) (tr : List Event) : Bool :=
  (List.range tr.length).all (fun i =>
    if tr.get? i = some (.stopTrack tid) then
      (List.range i).any (fun j =>
        match tr.get? j with
        | some e => isAcquireEvent e
        | none => false)
    else true)

/-- The black-frame keepalive tasks currently live. -/
def blackFrameTimers (s : MMState) : List Timer :=
  s.timers.filter (fun t => decide (t.purpose = TimerPurpose.blackFrame))

/-- A fresh manager after `setVolumeLevel(0.4)` with stored constraints
whose audio is truthy: no gain branch exists yet, but the volume is
remembered. -/
def sVol : MMState :=
  (setVolumeLevel (2/5)
    { sFresh with mediaConstraints := some { audio := some .on } }).2.1

/-- The observable identity-and-liveness shape of a track: its object
identity, kind, and stopped flag — everything except the `enabled` toggle
and the `onended` slot. -/
def trackShape (t : Track) : Nat × Kind × Bool := (t.tid, t.kind, t.stopped)

/-- Frame predicate: a computation neither starts nor clears any recurring
task — the browser timer table (`timers`, `blackFrameTimer`,
`clearedTimers`, `nextTimerId`, `soundLevelProviderId`) is untouched,
whatever state it runs in. -/
def timersFrame {α : Type} (m : M α) : Prop := ∀ s : MMState,
  ((m s).2.1).timers = s.timers ∧
  ((m s).2.1).blackFrameTimer = s.blackFrameTimer ∧
  ((m s).2.1).clearedTimers = s.clearedTimers ∧
  ((m s).2.1).nextTimerId = s.nextTimerId ∧
  ((m s).2.1).soundLevelProviderId = s.soundLevelProviderId

/-- A computation that resolves (never rejects) from every state. -/
def alwaysOk {α : Type} (m : M α) : Prop := ∀ s : MMState, ∃ a, (m s).1 = Except.ok a

/-! ## Theorems -/

/-- **C6.**  For every freshly constructed `MediaManager` — whatever the
user parameters, registry and preview element — `initialize()` returns
`false`, leaves the state untouched, and performs none of its work (no
permission check, no device enumeration, no device-change listener: the
event trace is empty).  The guard `if (!this.initialized) return false`
returns early because the constructor ends with `this.initialized = false`
(overwriting even a user-parameter override), and the only assignment of
`true` sits below the guard. -/
theorem initialize_returnsFalse_andDoesNothing :
    ∀ (p : UserParams) (senders : List Sender) (lv : Bool) (fuel : Nat) (env : Env),
      initializeMedia fuel env (mkMediaManager p senders lv) =
        (.ok false, mkMediaManager p senders lv, []) := by
  intro p senders lv fuel env
  rfl

/-- **C8.**  With `camera_margin` 15, `camera_location` top,
`camera_percent` 15 and a 1280×720 screen source, every compositor draw
tick computes overlay width 1280·(15/100) = 192, x-position
1280 − 192 − 15 = 1073 and y-position 15, whatever the camera element's
own resolution. -/
theorem compositor_geometry_scenario :
    ∀ camVidW camVidH : ℚ,
      (compositorDrawTick 15 15 .top 1280 720 camVidW camVidH).2.1.1 = 192 ∧
      (compositorDrawTick 15 15 .top 1280 720 camVidW camVidH).2.2.1 = 1073 ∧
      (compositorDrawTick 15 15 .top 1280 720 camVidW camVidH).2.2.2 = 15 := by
  intro camVidW camVidH
  refine ⟨?_, ?_, ?_⟩ <;> norm_num [compositorDrawTick]

/-- **C7** (code bug).  The audio-device switch path is broken:
`setAudioInputSource` rejects with a ReferenceError (undeclared
`deviceStream`, js:884) on a truthy audio constraint and with a TypeError
(`this.devices` is never assigned, js:872) on a falsy one, before reaching
`updateLocalAudioStream`.  Since `switchAudioInputSource` fires it without
awaiting, the switch itself resolves, leaving the Local Stream holding only
the old — already stopped — audio track; started from a stream with no
audio track, it resolves with zero audio tracks, violating the claimed
"exactly one". -/
theorem audioSwitch_pathBroken :
    (setAudioInputSource { video := some .off, audio := some (.device 5) } sBase).1 =
      .error .referenceError ∧
    (setAudioInputSource { video := some .on, audio := none } sBase).1 =
      .error .typeError ∧
    (switchAudioInputSource (some 7) (some 5) sBase).1 = .ok () ∧
    ((switchAudioInputSource (some 7) (some 5) sBase).2.1.localStream.map
      (fun l => (audioTracksOf l).map (fun t => (t.tid, t.stopped)))) =
        some [(2, true)] ∧
    ((switchAudioInputSource (some 7) (some 5)
        { sBase with localStream := some [vTrack 1] }).2.1.localStream.map
      (fun l => (audioTracksOf l).length)) = some 0 := by
  refine ⟨rfl, rfl, rfl, rfl, rfl⟩

/-- **C3** (code bug).  The compositor's draw interval survives every
teardown: `setDesktopWithCameraSource` discards the id returned by
`setInterval` (js:305), so after `closeStream()` the 66 ms draw task is
still live (only the sound-level interval is cleared), and after switching
from screen+camera to camera (`switchVideoCameraCapture`, which stops the
desktop track) the draw task is still live and keeps issuing draws. -/
theorem compositorTimer_survivesTeardown :
    ((setDesktopWithCameraSourceF (osrOf 3 envOk) envOk [vTrack 30, aTrack 31 true]
        (some 7) .screenShareStopped
        { sPre with publishMode := .screenCamera }).2.1.timers =
      [{ id := 0, period := 66, purpose := .compositorDraw }]) ∧
    ((closeStream ((setDesktopWithCameraSourceF (osrOf 3 envOk) envOk
        [vTrack 30, aTrack 31 true] (some 7) .screenShareStopped
        { sPre with publishMode := .screenCamera }).2.1)).2.1.timers =
      [{ id := 0, period := 66, purpose := .compositorDraw }]) ∧
    ((closeStream ((setDesktopWithCameraSourceF (osrOf 3 envOk) envOk
        [vTrack 30, aTrack 31 true] (some 7) .screenShareStopped
        { sPre with publishMode := .screenCamera }).2.1)).2.1.localStream = none) ∧
    ((switchVideoCameraCapture 3 envOk (some 7) (some 5)
        ((setDesktopWithCameraSourceF (osrOf 3 envOk) envOk
          [vTrack 30, aTrack 31 true] (some 7) .screenShareStopped
          { sPre with publishMode := .screenCamera }).2.1)).2.1.timers =
      [{ id := 0, period := 66, purpose := .compositorDraw }]) := by
  refine ⟨rfl, rfl, rfl, rfl⟩

/-- **C4** (code bug).  Display-capture permission denial with the fallback
not overridden: (a) with no Local Stream, the source calls
`openStream({video:true, audio:true})`, but `openStream → getMedia` routes
by the *unchanged* publish mode (`screen`), so it re-enters
`getDisplayMedia` — standard user-media capture is never attempted and the
denial loop runs until the fuel bound (the recursion is unbounded in the
source); (b) with a Local Stream active, the fallback evaluates the
undeclared identifier `streamId` (js:467) and rejects with a
ReferenceError instead of switching back to camera capture. -/
theorem displayFallback_divergence :
    ((switchDesktopCapture 5 envDeny (some 7) sPre).1 = .error .outOfFuel) ∧
    ((switchDesktopCapture 5 envDeny (some 7) sPre).2.2.count .acquireDisplayMedia = 6) ∧
    ((switchDesktopCapture 5 envDeny (some 7) sPre).2.2.all
      (fun e => !isUserAcquireEvent e) = true) ∧
    ((getDisplayMediaF (osrOf 5 envDeny) envDeny {} sBase).1 =
      .error .referenceError) := by
  refine ⟨rfl, by decide, by decide, rfl⟩

/-- **C1.**  Track replacement is all-or-nothing per track, for
`updateAudioTrack` and `updateVideoTrack` alike: when the registry yields a
sender for `(streamId, kind)` whose `replaceTrack` rejects, the error
propagates and the state — in particular the Local Stream — is left exactly
as it was (and no event is emitted); when `replaceTrack` resolves, the
sender is rebound and only then does `updateLocalAudioStream` /
`updateLocalVideoStream` mutate the Local Stream; when no sender exists,
the Local Stream is mutated directly. -/
theorem updateTrack_allOrNothing :
    (∀ (s : MMState) (stream : MStream) (sid : Option Nat) (cb : Option Cb)
        (snd : Sender),
      lookupSender s sid .audio = some snd → snd.failNext = true →
        updateAudioTrack stream sid cb s = (.error .senderReplaceFailed, s, [])) ∧
    (∀ (s : MMState) (stream : MStream) (sid : Option Nat) (cb : Option Cb)
        (snd : Sender),
      lookupSender s sid .audio = some snd → snd.failNext = false →
        updateAudioTrack stream sid cb s =
          (let newTid := (audioTracksOf stream).head?.map Track.tid
           let r := updateLocalAudioStream stream cb
             (bindSender s snd.streamId snd.kind newTid)
           (r.1, r.2.1, Event.senderReplace snd.kind newTid :: r.2.2))) ∧
    (∀ (s : MMState) (stream : MStream) (sid : Option Nat) (cb : Option Cb),
      lookupSender s sid .audio = none →
        updateAudioTrack stream sid cb s = updateLocalAudioStream stream cb s) ∧
    (∀ (s : MMState) (stream : MStream) (sid : Option Nat) (cb : Option Cb)
        (sd : Bool) (snd : Sender),
      lookupSender s sid .video = some snd → snd.failNext = true →
        updateVideoTrack stream sid cb sd s = (.error .senderReplaceFailed, s, [])) ∧
    (∀ (s : MMState) (stream : MStream) (sid : Option Nat) (cb : Option Cb)
        (sd : Bool) (snd : Sender),
      lookupSender s sid .video = some snd → snd.failNext = false →
        updateVideoTrack stream sid cb sd s =
          (let newTid := (videoTracksOf stream).head?.map Track.tid
           let r := updateLocalVideoStream stream cb sd
             (bindSender s snd.streamId snd.kind newTid)
           (r.1, r.2.1, Event.senderReplace snd.kind newTid :: r.2.2))) ∧
    (∀ (s : MMState) (stream : MStream) (sid : Option Nat) (cb : Option Cb)
        (sd : Bool),
      lookupSender s sid .video = none →
        updateVideoTrack stream sid cb sd s = updateLocalVideoStream stream cb sd s) := by
  refine ⟨?_, ?_, ?_, ?_, ?_, ?_⟩
  · intro s stream sid cb snd h1 h2
    simp only [updateAudioTrack, bind_eq, mBind, getS, h1]
    simp only [senderReplaceTrack, bind_eq, mBind, h2, if_true, throwM]
    rfl
  · intro s stream sid cb snd h1 h2
    simp only [updateAudioTrack, bind_eq, mBind, getS, h1]
    simp only [senderReplaceTrack, bind_eq, mBind, h2, if_false, modifyS, emit,
      Bool.false_eq_true, List.nil_append]
    rcases hr : updateLocalAudioStream stream cb
      (bindSender s snd.streamId snd.kind
        ((audioTracksOf stream).head?.map Track.tid)) with ⟨r, s2, t2⟩
    simp
  · intro s stream sid cb h1
    simp only [updateAudioTrack, bind_eq, mBind, getS, h1]
    rcases hr : updateLocalAudioStream stream cb s with ⟨r, s2, t2⟩
    simp
  · intro s stream sid cb sd snd h1 h2
    simp only [updateVideoTrack, bind_eq, mBind, getS, h1]
    simp only [senderReplaceTrack, bind_eq, mBind, h2, if_true, throwM]
    rfl
  · intro s stream sid cb sd snd h1 h2
    simp only [updateVideoTrack, bind_eq, mBind, getS, h1]
    simp only [senderReplaceTrack, bind_eq, mBind, h2, if_false, modifyS, emit,
      Bool.false_eq_true, List.nil_append]
    rcases hr : updateLocalVideoStream stream cb sd
      (bindSender s snd.streamId snd.kind
        ((videoTracksOf stream).head?.map Track.tid)) with ⟨r, s2, t2⟩
    simp
  · intro s stream sid cb sd h1
    simp only [updateVideoTrack, bind_eq, mBind, getS, h1]
    rcases hr : updateLocalVideoStream stream cb sd s with ⟨r, s2, t2⟩
    simp

/-- Witness for **C1** at a concrete input: a rejecting sender for
`(7, audio)` makes `updateAudioTrack` propagate the error with the state —
Local Stream included — untouched. -/
theorem updateTrack_allOrNothing_witness :
    updateAudioTrack [aTrack 40 true] (some 7) none sSenderFail =
      (.error .senderReplaceFailed, sSenderFail, []) :=
  updateTrack_allOrNothing.1 sSenderFail [aTrack 40 true] (some 7) none
    { streamId := some 7, kind := .audio, failNext := true } rfl rfl

theorem mBind_getS {α : Type} (f : MMState → M α) (s : MMState) :
    mBind getS f s = f s s := by
  show (match getS s with
    | (.ok a, s1, t1) =>
      match f a s1 with
      | (r, s2, t2) => (r, s2, t1 ++ t2)
    | (.error e, s1, t1) => (.error e, s1, t1)) = f s s
  rcases h : f s s with ⟨r, s2, t2⟩
  simp [getS, h]

theorem traceHead_stopTrack_mBind {α : Type} (tid : Nat) (k : Unit → M α)
    (s : MMState) :
    ((mBind (stopTrackM tid) k) s).2.2.head? = some (.stopTrack tid) := by
  simp only [mBind, stopTrackM, bind_eq, modifyS, emit]
  rcases k () (mapTracksEverywhere
    (fun t => if t.tid = tid then { t with stopped := true } else t) s) with ⟨r, s2, t2⟩
  rfl

/-- **C2, counterexample.**  The claim "the previously bound track is
stopped only after the new track has been acquired and bound — never
before" is false on the code: in a concrete camera-device switch (live
stream with video track 1, audio track 2), the trace stops track 1 *before*
any acquisition event, even though the run does go on to acquire a new
stream; the audio-device switch likewise stops track 2 with no acquisition
preceding it. -/
theorem switch_stopOrdering_cex :
    stopsOnlyAfterAcquire 1
        ((switchVideoCameraCapture 3 envOk (some 7) (some 5)) sBase).2.2 = false ∧
    ((switchVideoCameraCapture 3 envOk (some 7) (some 5)) sBase).2.2.any
        isAcquireEvent = true ∧
    stopsOnlyAfterAcquire 2
        ((switchAudioInputSource (some 7) (some 5)) sBase).2.2 = false := by
  refine ⟨by decide, by decide, by decide⟩

/-- **C2, amended.**  Within every device-switch operation
(`switchAudioInputSource`, `switchVideoCameraCapture`,
`switchVideoCameraFacingMode`), the previously bound track of that kind is
stopped *first* — the stop is the very first event of the operation,
before any acquisition or sender binding (the source comments that some
Android devices require releasing the device before reacquisition). -/
theorem switch_stopsOldTrackFirst :
    (∀ (s : MMState) (sid devId : Option Nat) (ls : MStream) (t : Track),
      s.localStream = some ls → (audioTracksOf ls).head? = some t →
      ((switchAudioInputSource sid devId) s).2.2.head? = some (.stopTrack t.tid)) ∧
    (∀ (fuel : Nat) (env : Env) (s : MMState) (sid devId : Option Nat)
        (ls : MStream) (t : Track),
      s.localStream = some ls → (videoTracksOf ls).head? = some t →
      ((switchVideoCameraCapture fuel env sid devId) s).2.2.head? =
        some (.stopTrack t.tid)) ∧
    (∀ (fuel : Nat) (env : Env) (s : MMState) (sid : Option Nat) (m : Nat)
        (ls : MStream) (t : Track),
      s.localStream = some ls → (videoTracksOf ls).head? = some t →
      ((switchVideoCameraFacingMode fuel env sid m) s).2.2.head? =
        some (.stopTrack t.tid)) := by
  refine ⟨?_, ?_, ?_⟩
  · intro s sid devId ls t h1 h2
    simp only [switchAudioInputSource, bind_eq, mBind_getS, h1, h2]
    exact traceHead_stopTrack_mBind t.tid _ s
  · intro fuel env s sid devId ls t h1 h2
    simp only [switchVideoCameraCapture, bind_eq, mBind_getS, h1, h2]
    exact traceHead_stopTrack_mBind t.tid _ s
  · intro fuel env s sid m ls t h1 h2
    simp only [switchVideoCameraFacingMode, bind_eq, mBind_getS, h1, h2]
    exact traceHead_stopTrack_mBind t.tid _ s

/-- Witness for the amended **C2** at concrete inputs: all three switches
start by stopping the old track of their kind. -/
theorem switch_stopsOldTrackFirst_witness :
    ((switchAudioInputSource (some 7) (some 5)) sBase).2.2.head? =
      some (.stopTrack 2) ∧
    ((switchVideoCameraCapture 3 envOk (some 7) (some 5)) sBase).2.2.head? =
      some (.stopTrack 1) ∧
    ((switchVideoCameraFacingMode 3 envOk (some 7) 1) sBase).2.2.head? =
      some (.stopTrack 1) :=
  ⟨switch_stopsOldTrackFirst.1 sBase (some 7) (some 5)
      [vTrack 1, aTrack 2 true] (aTrack 2 true) rfl rfl,
   switch_stopsOldTrackFirst.2.1 3 envOk sBase (some 7) (some 5)
      [vTrack 1, aTrack 2 true] (vTrack 1) rfl rfl,
   switch_stopsOldTrackFirst.2.2 3 envOk sBase (some 7) 1
      [vTrack 1, aTrack 2 true] (vTrack 1) rfl rfl⟩

/-- **C5, counterexample.**  The claim says *every* newly built gain branch
is initialised to the stored volume; but `mixAudioStreams` — the
system+microphone rebuild — initialises both branches to unity gain
(js:636, js:648) even though the stored volume is 2/5 (= 0.4): the claim
fails at this concrete input. -/
theorem mixAudio_ignoresStoredVolume_cex :
    sVol.currentVolume = some (2/5) ∧
    ((mixAudioStreams [vTrack 1, aTrack 2 true] [aTrack 3 true]) sVol).2.1.primaryAudioTrackGainNode =
      some { gain := 1 } ∧
    ((mixAudioStreams [vTrack 1, aTrack 2 true] [aTrack 3 true]) sVol).2.1.secondaryAudioTrackGainNode =
      some { gain := 1 } ∧
    (1 : ℚ) ≠ 2/5 := by
  refine ⟨rfl, rfl, rfl, by norm_num⟩

/-- **C5, amended.**  A previously stored volume level is honoured only by
`setGainNodeStream` (the microphone-mode branch, js:698-702): its new
primary branch is initialised to the stored volume (and to unity when none
was stored).  `mixAudioStreams` — the system+microphone rebuild —
initialises whichever branches it builds to unity gain unconditionally.
In particular the claim's concrete scenario holds for the microphone-mode
graph: volume 0.4 stored before any graph exists yields a branch at 0.4. -/
theorem gainBranch_initialisation :
    (∀ (s : MMState) (stream : MStream) (v : ℚ),
      s.currentVolume = some v → aTruthy (getMediaConstraints s).audio = true →
      ((setGainNodeStream stream) s).2.1.primaryAudioTrackGainNode =
        some { gain := v }) ∧
    (∀ (s : MMState) (stream : MStream),
      s.currentVolume = none → aTruthy (getMediaConstraints s).audio = true →
      ((setGainNodeStream stream) s).2.1.primaryAudioTrackGainNode =
        some { gain := 1 }) ∧
    (∀ (s : MMState) (str sec : MStream),
      audioTracksOf str ≠ [] →
      ((mixAudioStreams str sec) s).2.1.primaryAudioTrackGainNode =
        some { gain := 1 }) ∧
    (∀ (s : MMState) (str sec : MStream),
      audioTracksOf sec ≠ [] →
      ((mixAudioStreams str sec) s).2.1.secondaryAudioTrackGainNode =
        some { gain := 1 }) := by
  refine ⟨?_, ?_, ?_, ?_⟩
  · intro s stream v h1 h2
    cases hp : s.previousAudioTrack with
    | none =>
      simp [setGainNodeStream, bind_eq, mBind_getS, mBind, modifyS, getS, emit,
        stopTrackM, mapTracksEverywhere, h1, h2, hp, mPure, pure_eq]
    | some p =>
      simp [setGainNodeStream, bind_eq, mBind_getS, mBind, modifyS, getS, emit,
        stopTrackM, mapTracksEverywhere, h1, h2, hp, mPure, pure_eq]
  · intro s stream h1 h2
    cases hp : s.previousAudioTrack with
    | none =>
      simp [setGainNodeStream, bind_eq, mBind_getS, mBind, modifyS, getS, emit,
        stopTrackM, mapTracksEverywhere, h1, h2, hp, mPure, pure_eq]
    | some p =>
      simp [setGainNodeStream, bind_eq, mBind_getS, mBind, modifyS, getS, emit,
        stopTrackM, mapTracksEverywhere, h1, h2, hp, mPure, pure_eq]
  · intro s str sec h
    by_cases hsec : audioTracksOf sec = []
    · simp [mixAudioStreams, bind_eq, mBind, modifyS, getS, emit, h, hsec, mPure, pure_eq]
    · simp [mixAudioStreams, bind_eq, mBind, modifyS, getS, emit, h, hsec, mPure, pure_eq]
  · intro s str sec h
    by_cases hstr : audioTracksOf str = []
    · simp [mixAudioStreams, bind_eq, mBind, modifyS, getS, emit, h, hstr, mPure, pure_eq]
    · simp [mixAudioStreams, bind_eq, mBind, modifyS, getS, emit, h, hstr, mPure, pure_eq]

/-- Witness for the amended **C5**: volume 0.4 (= 2/5) stored before any
audio graph exists, then a microphone-mode gain branch is built — it
initialises to 2/5, not 1. -/
theorem gainBranch_initialisation_witness :
    ((setGainNodeStream [aTrack 3 true]) sVol).2.1.primaryAudioTrackGainNode =
      some { gain := 2/5 } :=
  gainBranch_initialisation.1 sVol [aTrack 3 true] (2/5) rfl rfl

theorem map_eq_self_of {α : Type} (l : List α) (f : α → α) (h : ∀ x ∈ l, f x = x) :
    l.map f = l := by
  induction l with
  | nil => rfl
  | cons a l ih =>
    simp only [List.map_cons, List.cons.injEq]
    exact ⟨h a (by simp), ih (fun x hx => h x (by simp [hx]))⟩

theorem setAudioEnabled_tid (b : Bool) (tids : List Nat) (t : Track) :
    (setAudioEnabled b tids t).tid = t.tid ∧
    (setAudioEnabled b tids t).kind = t.kind ∧
    (setAudioEnabled b tids t).stopped = t.stopped := by
  unfold setAudioEnabled
  split <;> exact ⟨rfl, rfl, rfl⟩

theorem audioTids_map_setAudioEnabled (b : Bool) (tids : List Nat) (ls : MStream) :
    (audioTracksOf (ls.map (setAudioEnabled b tids))).map Track.tid =
      (audioTracksOf ls).map Track.tid := by
  induction ls with
  | nil => rfl
  | cons a l ih =>
    obtain ⟨h1, h2, _⟩ := setAudioEnabled_tid b tids a
    simp only [List.map_cons, audioTracksOf, List.filter_cons] at ih ⊢
    rw [h2]
    by_cases hk : a.kind = Kind.audio
    · simp [hk, ih, h1]
    · simp [hk, ih]

theorem setAudioEnabled_roundtrip (ls : MStream)
    (hall : ∀ t ∈ ls, t.kind = Kind.audio → t.enabled = true) :
    (ls.map (setAudioEnabled false ((audioTracksOf ls).map Track.tid))).map
      (setAudioEnabled true
        ((audioTracksOf (ls.map (setAudioEnabled false
          ((audioTracksOf ls).map Track.tid)))).map Track.tid)) = ls := by
  rw [audioTids_map_setAudioEnabled, List.map_map]
  apply map_eq_self_of
  intro t ht
  by_cases hk : t.kind = Kind.audio
  · have htid : t.tid ∈ (audioTracksOf ls).map Track.tid := by
      apply List.mem_map_of_mem
      unfold audioTracksOf
      apply List.mem_filter.mpr
      exact ⟨ht, by simp [hk]⟩
    have hen := hall t ht hk
    simp [setAudioEnabled, Function.comp, htid, hk]
    cases t
    simp_all
  · simp [setAudioEnabled, Function.comp, hk]

theorem trackShape_setAudioEnabled (b : Bool) (tids : List Nat) :
    trackShape ∘ setAudioEnabled b tids = trackShape := by
  funext t
  simp only [Function.comp_apply]
  unfold trackShape setAudioEnabled
  split <;> rfl

/-- **C10, counterexample.**  The claim quantifies over *any* state where
the Local Stream exists; started from a stream whose audio track is
disabled (`enabled = false`), `muteLocalMic` followed by `unmuteLocalMic`
leaves the track *enabled* — `unmuteLocalMic` forces `enabled = true` on
every audio track — so the original enabled state is not restored. -/
theorem muteToggle_cex :
    ((mBind muteLocalMic (fun _ => unmuteLocalMic))
        { sBase with localStream := some [vTrack 1, aTrack 2 false] }).2.1.localStream =
      some [vTrack 1, aTrack 2 true] ∧
    some [vTrack 1, aTrack 2 true] ≠ some [vTrack 1, aTrack 2 false] := by
  refine ⟨rfl, by decide⟩

/-- **C10, amended.**  `muteLocalMic ; unmuteLocalMic` restores the Local
Stream exactly whenever every audio track was enabled to begin with (the
ordinary unmuted state) — in general the pair forces `enabled = true`; and
regardless of enabled flags, neither call stops, removes, replaces or
reallocates any track: the stream's track identities, kinds and stopped
flags are untouched by each call. -/
theorem muteToggle_restores :
    (∀ (s : MMState) (ls : MStream),
      s.localStream = some ls →
      (∀ t ∈ ls, t.kind = Kind.audio → t.enabled = true) →
      ((mBind muteLocalMic (fun _ => unmuteLocalMic)) s).2.1.localStream = some ls ∧
      ((mBind muteLocalMic (fun _ => unmuteLocalMic)) s).2.1.isMuted = false) ∧
    (∀ (s : MMState) (ls : MStream),
      s.localStream = some ls →
      ((muteLocalMic s).2.1.localStream).map (List.map trackShape) =
        some (ls.map trackShape) ∧
      ((unmuteLocalMic s).2.1.localStream).map (List.map trackShape) =
        some (ls.map trackShape)) := by
  constructor
  · intro s ls h1 hall
    simp only [muteLocalMic, unmuteLocalMic, bind_eq, mBind, mBind_getS, modifyS, getS,
      emit, mapTracksEverywhere, h1, Option.map_some']
    refine ⟨?_, trivial⟩
    exact congrArg some (setAudioEnabled_roundtrip ls hall)
  · intro s ls h1
    constructor <;>
      simp [muteLocalMic, unmuteLocalMic, bind_eq, mBind, mBind_getS, modifyS, getS,
        emit, mapTracksEverywhere, h1, Option.map_some', List.map_map,
        trackShape_setAudioEnabled]

/-- Witness for the amended **C10**: with the usual all-enabled stream, the
double toggle restores it exactly, and a single mute keeps every track's
identity, kind and stopped flag. -/
theorem muteToggle_restores_witness :
    ((mBind muteLocalMic (fun _ => unmuteLocalMic)) sBase).2.1.localStream =
      some [vTrack 1, aTrack 2 true] ∧
    ((muteLocalMic sBase).2.1.localStream).map (List.map trackShape) =
      some ([vTrack 1, aTrack 2 true].map trackShape) :=
  ⟨(muteToggle_restores.1 sBase [vTrack 1, aTrack 2 true] rfl
      (by
        intro t ht hk
        simp only [List.mem_cons, List.not_mem_nil, or_false] at ht
        rcases ht with h | h <;> subst h <;> simp_all [aTrack, vTrack])).1,
   (muteToggle_restores.2 sBase [vTrack 1, aTrack 2 true] rfl).1⟩

theorem frame_mBind {α β : Type} {x : M α} {f : α → M β}
    (hx : timersFrame x) (hf : ∀ a, timersFrame (f a)) :
    timersFrame (mBind x f) := by
  intro s
  rcases hxs : x s with ⟨v, s1, t1⟩
  have h1 := hx s
  rw [hxs] at h1
  cases v with
  | ok a =>
    have h2 := (hf a) s1
    rcases hfs : f a s1 with ⟨r, s2, t2⟩
    rw [hfs] at h2
    simp only [mBind, hxs, hfs]
    simp_all
  | error e =>
    simp only [mBind, hxs]
    exact h1

theorem frame_pure {α : Type} (a : α) : timersFrame (mPure a) := fun _ =>
  ⟨rfl, rfl, rfl, rfl, rfl⟩

theorem frame_getS : timersFrame getS := fun _ => ⟨rfl, rfl, rfl, rfl, rfl⟩

theorem frame_emit (e : Event) : timersFrame (emit e) := fun _ =>
  ⟨rfl, rfl, rfl, rfl, rfl⟩

theorem frame_throwM {α : Type} (e : ErrName) : timersFrame (throwM e : M α) :=
  fun _ => ⟨rfl, rfl, rfl, rfl, rfl⟩

theorem frame_discardErr {m : M Unit} (h : timersFrame m) :
    timersFrame (discardErr m) := by
  intro s
  have h1 := h s
  rcases hms : m s with ⟨v, s1, t1⟩
  rw [hms] at h1
  simp only [discardErr, hms]
  exact h1

theorem frame_modifyS {f : MMState → MMState}
    (h : ∀ s, (f s).timers = s.timers ∧ (f s).blackFrameTimer = s.blackFrameTimer ∧
      (f s).clearedTimers = s.clearedTimers ∧ (f s).nextTimerId = s.nextTimerId ∧
      (f s).soundLevelProviderId = s.soundLevelProviderId) :
    timersFrame (modifyS f) := fun s => h s

theorem frame_stopTrackM (tid : Nat) : timersFrame (stopTrackM tid) := by
  unfold stopTrackM
  simp only [bind_eq]
  exact frame_mBind (frame_modifyS (fun _ => ⟨rfl, rfl, rfl, rfl, rfl⟩))
    (fun _ => frame_emit _)

theorem frame_setOnendedM (tid : Nat) (cb : Cb) : timersFrame (setOnendedM tid cb) :=
  frame_modifyS (fun _ => ⟨rfl, rfl, rfl, rfl, rfl⟩)

theorem frame_stopDesktopStep (sd : Bool) : timersFrame (stopDesktopStep sd) := by
  unfold stopDesktopStep
  simp only [bind_eq]
  refine frame_mBind frame_getS (fun s => ?_)
  split
  · split
    · split
      · exact frame_stopTrackM _
      · exact frame_throwM _
    · exact frame_pure _
  · exact frame_pure _

theorem frame_swapLocalVideoStep (stream : MStream) :
    timersFrame (swapLocalVideoStep stream) := by
  unfold swapLocalVideoStep
  simp only [bind_eq]
  refine frame_mBind frame_getS (fun s1 => ?_)
  split
  · split
    · refine frame_mBind (frame_modifyS (fun _ => ⟨rfl, rfl, rfl, rfl, rfl⟩))
        (fun _ => ?_)
      refine frame_mBind (frame_stopTrackM _) (fun _ => ?_)
      split
      · exact frame_modifyS (fun _ => ⟨rfl, rfl, rfl, rfl, rfl⟩)
      · exact frame_throwM _
    · split
      · exact frame_modifyS (fun _ => ⟨rfl, rfl, rfl, rfl, rfl⟩)
      · exact frame_throwM _
  · exact frame_modifyS (fun _ => ⟨rfl, rfl, rfl, rfl, rfl⟩)

theorem frame_bindPreviewStep : timersFrame bindPreviewStep := by
  unfold bindPreviewStep
  simp only [bind_eq]
  refine frame_mBind frame_getS (fun s => ?_)
  split
  · exact frame_emit _
  · exact frame_pure _

theorem frame_setVideoOnendedStep (stream : MStream) (cb : Option Cb) :
    timersFrame (setVideoOnendedStep stream cb) := by
  unfold setVideoOnendedStep
  split
  · split
    · exact frame_setOnendedM _ _
    · exact frame_throwM _
  · exact frame_pure _

theorem frame_updateLocalVideoStream (stream : MStream) (cb : Option Cb) (sd : Bool) :
    timersFrame (updateLocalVideoStream stream cb sd) := by
  unfold updateLocalVideoStream
  exact frame_mBind (frame_stopDesktopStep sd) (fun _ =>
    frame_mBind (frame_swapLocalVideoStep stream) (fun _ =>
      frame_mBind frame_bindPreviewStep (fun _ =>
        frame_setVideoOnendedStep stream cb)))

theorem frame_senderReplaceTrack (snd : Sender) (newTid : Option Nat) :
    timersFrame (senderReplaceTrack snd newTid) := by
  unfold senderReplaceTrack
  split
  · exact frame_throwM _
  · simp only [bind_eq]
    exact frame_mBind (frame_modifyS (fun _ => ⟨rfl, rfl, rfl, rfl, rfl⟩))
      (fun _ => frame_emit _)

theorem frame_updateVideoTrack (stream : MStream) (sid : Option Nat) (cb : Option Cb)
    (sd : Bool) : timersFrame (updateVideoTrack stream sid cb sd) := by
  unfold updateVideoTrack
  simp only [bind_eq]
  refine frame_mBind frame_getS (fun s => ?_)
  split
  · exact frame_mBind (frame_senderReplaceTrack _ _)
      (fun _ => frame_updateLocalVideoStream stream cb sd)
  · exact frame_updateLocalVideoStream stream cb sd

theorem frame_gotStream (stream : MStream) : timersFrame (gotStream stream) := by
  unfold gotStream
  simp only [bind_eq]
  refine frame_mBind (frame_modifyS (fun _ => ⟨rfl, rfl, rfl, rfl, rfl⟩)) (fun _ => ?_)
  refine frame_mBind frame_getS (fun s => ?_)
  split
  · exact frame_emit _
  · exact frame_pure _

theorem frame_initializeDummyFrame : timersFrame initializeDummyFrame := by
  unfold initializeDummyFrame
  simp only [bind_eq]
  exact frame_mBind frame_getS
    (fun s => frame_modifyS (fun _ => ⟨rfl, rfl, rfl, rfl, rfl⟩))

theorem frame_turnOffSwapStep (sid : Option Nat) :
    timersFrame (turnOffSwapStep sid) := by
  unfold turnOffSwapStep
  simp only [bind_eq]
  refine frame_mBind frame_initializeDummyFrame (fun _ => ?_)
  refine frame_mBind frame_getS (fun s => ?_)
  split
  · refine frame_mBind (frame_modifyS (fun _ => ⟨rfl, rfl, rfl, rfl, rfl⟩))
      (fun _ => ?_)
    refine frame_mBind frame_getS (fun s1 => ?_)
    split
    · exact frame_discardErr (frame_updateVideoTrack _ _ _ _)
    · exact frame_pure _
  · exact frame_emit _

theorem frame_getUserMediaF_false (osr : MC → M (Option MStream)) (env : Env)
    (mc : MC) (gd : (MC → M (Option MStream)) → Env → M Unit) :
    timersFrame (getUserMediaF osr env mc false gd) := by
  unfold getUserMediaF
  simp only [bind_eq]
  refine frame_mBind (frame_emit _) (fun _ => ?_)
  split
  · simp_all
  · split
    · exact frame_pure _
    · exact frame_throwM _

theorem frame_turnOnReacquireStep (fuel : Nat) (env : Env) (sid : Option Nat) :
    timersFrame (turnOnReacquireStep fuel env sid) := by
  unfold turnOnReacquireStep
  simp only [bind_eq]
  refine frame_mBind frame_getS (fun s => ?_)
  refine frame_mBind frame_getS (fun s1 => ?_)
  split
  · refine frame_mBind (frame_getUserMediaF_false _ _ _ _) (fun str? => ?_)
    split
    · exact frame_mBind (frame_gotStream _) (fun _ => frame_pure _)
    · exact frame_pure _
  · refine frame_mBind (frame_getUserMediaF_false _ _ _ _) (fun str? => ?_)
    split
    · refine frame_mBind (frame_modifyS (fun _ => ⟨rfl, rfl, rfl, rfl, rfl⟩))
        (fun _ => ?_)
      exact frame_mBind (frame_discardErr (frame_updateVideoTrack _ _ _ _))
        (fun _ => frame_pure _)
    · exact frame_pure _


theorem ok_mBind {α β : Type} {x : M α} {f : α → M β}
    (hx : alwaysOk x) (hf : ∀ a, alwaysOk (f a)) : alwaysOk (mBind x f) := by
  intro s
  rcases hxs : x s with ⟨v, s1, t1⟩
  obtain ⟨a, ha⟩ := hx s
  rw [hxs] at ha
  cases v with
  | ok a0 =>
    obtain ⟨b, hb⟩ := hf a0 s1
    rcases hfs : f a0 s1 with ⟨r, s2, t2⟩
    rw [hfs] at hb
    refine ⟨b, ?_⟩
    simp only [mBind, hxs, hfs]
    simp_all
  | error e => simp_all

theorem ok_pure {α : Type} (a : α) : alwaysOk (mPure a) := fun _ => ⟨a, rfl⟩

theorem ok_getS : alwaysOk getS := fun s => ⟨s, rfl⟩

theorem ok_emit (e : Event) : alwaysOk (emit e) := fun _ => ⟨(), rfl⟩

theorem ok_modifyS (f : MMState → MMState) : alwaysOk (modifyS f) := fun _ => ⟨(), rfl⟩

theorem ok_discardErr (m : M Unit) : alwaysOk (discardErr m) := by
  intro s
  rcases hms : m s with ⟨v, s1, t1⟩
  exact ⟨(), by simp only [discardErr, hms]⟩

theorem ok_stopTrackM (tid : Nat) : alwaysOk (stopTrackM tid) := by
  unfold stopTrackM
  simp only [bind_eq]
  exact ok_mBind (ok_modifyS _) (fun _ => ok_emit _)

theorem ok_initializeDummyFrame : alwaysOk initializeDummyFrame := by
  unfold initializeDummyFrame
  simp only [bind_eq]
  exact ok_mBind ok_getS (fun _ => ok_modifyS _)

theorem ok_turnOffSwapStep (sid : Option Nat) : alwaysOk (turnOffSwapStep sid) := by
  unfold turnOffSwapStep
  simp only [bind_eq]
  refine ok_mBind ok_initializeDummyFrame (fun _ => ?_)
  refine ok_mBind ok_getS (fun s => ?_)
  split
  · refine ok_mBind (ok_modifyS _) (fun _ => ?_)
    refine ok_mBind ok_getS (fun s1 => ?_)
    split
    · exact ok_discardErr _
    · exact ok_pure _
  · exact ok_emit _

theorem frame_muteLocalMic : timersFrame muteLocalMic := by
  unfold muteLocalMic
  simp only [bind_eq]
  refine frame_mBind (frame_modifyS (fun _ => ⟨rfl, rfl, rfl, rfl, rfl⟩)) (fun _ => ?_)
  refine frame_mBind frame_getS (fun s => ?_)
  split
  · exact frame_modifyS (fun _ => ⟨rfl, rfl, rfl, rfl, rfl⟩)
  · exact frame_emit _

theorem frame_unmuteLocalMic : timersFrame unmuteLocalMic := by
  unfold unmuteLocalMic
  simp only [bind_eq]
  refine frame_mBind (frame_modifyS (fun _ => ⟨rfl, rfl, rfl, rfl, rfl⟩)) (fun _ => ?_)
  refine frame_mBind frame_getS (fun s => ?_)
  split
  · exact frame_modifyS (fun _ => ⟨rfl, rfl, rfl, rfl, rfl⟩)
  · exact frame_emit _

theorem frame_setVolumeLevel (v : ℚ) : timersFrame (setVolumeLevel v) := by
  unfold setVolumeLevel
  simp only [bind_eq]
  refine frame_mBind (frame_modifyS (fun _ => ⟨rfl, rfl, rfl, rfl, rfl⟩)) (fun _ => ?_)
  refine frame_mBind frame_getS (fun s => ?_)
  split
  case isTrue =>
    refine frame_mBind (frame_modifyS (fun _ => ⟨rfl, rfl, rfl, rfl, rfl⟩)) (fun _ => ?_)
    refine frame_mBind frame_getS (fun s1 => ?_)
    split
    · exact frame_modifyS (fun _ => ⟨rfl, rfl, rfl, rfl, rfl⟩)
    · exact frame_pure _
  case isFalse =>
    refine frame_mBind (frame_pure _) (fun _ => ?_)
    refine frame_mBind frame_getS (fun s1 => ?_)
    split
    · exact frame_modifyS (fun _ => ⟨rfl, rfl, rfl, rfl, rfl⟩)
    · exact frame_pure _

theorem frame_setAudioInputSource (mc : MC) : timersFrame (setAudioInputSource mc) := by
  unfold setAudioInputSource
  split
  · exact frame_throwM _
  · exact frame_throwM _

theorem frame_switchAudioInputSource (sid devId : Option Nat) :
    timersFrame (switchAudioInputSource sid devId) := by
  unfold switchAudioInputSource
  simp only [bind_eq]
  refine frame_mBind frame_getS (fun s => ?_)
  split
  · exact frame_throwM _
  · split
    · refine frame_mBind (frame_stopTrackM _) (fun _ => ?_)
      split
      · (try refine frame_mBind (frame_pure _) (fun _ => ?_))
        refine frame_mBind frame_getS (fun s1 => ?_)
        split
        · exact frame_mBind (frame_throwM _)
            (fun _ => frame_discardErr (frame_setAudioInputSource _))
        · split
          · exact frame_mBind (frame_modifyS (fun _ => ⟨rfl, rfl, rfl, rfl, rfl⟩))
              (fun _ => frame_discardErr (frame_setAudioInputSource _))
          · exact frame_mBind (frame_modifyS (fun _ => ⟨rfl, rfl, rfl, rfl, rfl⟩))
              (fun _ => frame_discardErr (frame_setAudioInputSource _))
          · exact frame_mBind (frame_throwM _)
              (fun _ => frame_discardErr (frame_setAudioInputSource _))
          · exact frame_mBind (frame_throwM _)
              (fun _ => frame_discardErr (frame_setAudioInputSource _))
      · (try refine frame_mBind (frame_pure _) (fun _ => ?_))
        refine frame_mBind frame_getS (fun s1 => ?_)
        exact frame_discardErr (frame_setAudioInputSource _)
    · split
      · (try refine frame_mBind (frame_pure _) (fun _ => ?_))
        refine frame_mBind frame_getS (fun s1 => ?_)
        split
        · exact frame_mBind (frame_throwM _)
            (fun _ => frame_discardErr (frame_setAudioInputSource _))
        · split
          · exact frame_mBind (frame_modifyS (fun _ => ⟨rfl, rfl, rfl, rfl, rfl⟩))
              (fun _ => frame_discardErr (frame_setAudioInputSource _))
          · exact frame_mBind (frame_modifyS (fun _ => ⟨rfl, rfl, rfl, rfl, rfl⟩))
              (fun _ => frame_discardErr (frame_setAudioInputSource _))
          · exact frame_mBind (frame_throwM _)
              (fun _ => frame_discardErr (frame_setAudioInputSource _))
          · exact frame_mBind (frame_throwM _)
              (fun _ => frame_discardErr (frame_setAudioInputSource _))
      · (try refine frame_mBind (frame_pure _) (fun _ => ?_))
        refine frame_mBind frame_getS (fun s1 => ?_)
        exact frame_discardErr (frame_setAudioInputSource _)

theorem frame_forM_stop (l : List Track) :
    timersFrame (l.forM (fun t => stopTrackM t.tid)) := by
  induction l with
  | nil => exact fun _ => ⟨rfl, rfl, rfl, rfl, rfl⟩
  | cons a l ih =>
    show timersFrame (mBind (stopTrackM a.tid) (fun _ => l.forM (fun t => stopTrackM t.tid)))
    exact frame_mBind (frame_stopTrackM _) (fun _ => ih)

theorem frame_stopLocalTracksStep : timersFrame stopLocalTracksStep := by
  unfold stopLocalTracksStep
  simp only [bind_eq]
  refine frame_mBind frame_getS (fun s => ?_)
  split
  · refine frame_mBind (frame_forM_stop _) (fun _ => ?_)
    refine frame_mBind (frame_forM_stop _) (fun _ => ?_)
    refine frame_mBind (frame_forM_stop _) (fun _ => ?_)
    exact frame_modifyS (fun _ => ⟨rfl, rfl, rfl, rfl, rfl⟩)
  · exact frame_pure _

theorem frame_stopStrayTracksStep : timersFrame stopStrayTracksStep := by
  unfold stopStrayTracksStep
  simp only [bind_eq]
  refine frame_mBind frame_getS (fun s => ?_)
  split
  · refine frame_mBind (frame_stopTrackM _) (fun _ => ?_)
    refine frame_mBind frame_getS (fun s2 => ?_)
    split
    · exact frame_stopTrackM _
    · exact frame_pure _
  · refine frame_mBind (frame_pure _) (fun _ => ?_)
    refine frame_mBind frame_getS (fun s2 => ?_)
    split
    · exact frame_stopTrackM _
    · exact frame_pure _

theorem ok_forM_stop (l : List Track) :
    alwaysOk (l.forM (fun t => stopTrackM t.tid)) := by
  induction l with
  | nil => exact fun _ => ⟨(), rfl⟩
  | cons a l ih =>
    show alwaysOk (mBind (stopTrackM a.tid) (fun _ => l.forM (fun t => stopTrackM t.tid)))
    exact ok_mBind (ok_stopTrackM _) (fun _ => ih)

theorem ok_stopLocalTracksStep : alwaysOk stopLocalTracksStep := by
  unfold stopLocalTracksStep
  simp only [bind_eq]
  refine ok_mBind ok_getS (fun s => ?_)
  split
  · refine ok_mBind (ok_forM_stop _) (fun _ => ?_)
    refine ok_mBind (ok_forM_stop _) (fun _ => ?_)
    refine ok_mBind (ok_forM_stop _) (fun _ => ?_)
    exact ok_modifyS _
  · exact ok_pure _

theorem ok_stopStrayTracksStep : alwaysOk stopStrayTracksStep := by
  unfold stopStrayTracksStep
  simp only [bind_eq]
  refine ok_mBind ok_getS (fun s => ?_)
  split
  · refine ok_mBind (ok_stopTrackM _) (fun _ => ?_)
    refine ok_mBind ok_getS (fun s2 => ?_)
    split
    · exact ok_stopTrackM _
    · exact ok_pure _
  · refine ok_mBind (ok_pure _) (fun _ => ?_)
    refine ok_mBind ok_getS (fun s2 => ?_)
    split
    · exact ok_stopTrackM _
    · exact ok_pure _


theorem turnOff_startsTimer : ∀ (s : MMState) (sid : Option Nat),
    s.blackFrameTimer = none →
    ((turnOffLocalCamera sid) s).2.1.timers =
      s.timers ++ [{ id := s.nextTimerId, period := 3000, purpose := .blackFrame }] ∧
    ((turnOffLocalCamera sid) s).2.1.blackFrameTimer = some s.nextTimerId ∧
    ((turnOffLocalCamera sid) s).2.1.clearedTimers = s.clearedTimers := by
  intro s sid h
  obtain ⟨u, hok⟩ := ok_turnOffSwapStep sid s
  rcases hsw : turnOffSwapStep sid s with ⟨v, s1, t1⟩
  rw [hsw] at hok
  simp only at hok
  subst hok
  have hf := frame_turnOffSwapStep sid s
  rw [hsw] at hf
  obtain ⟨hT, hB, hC, hN, hS⟩ := hf
  simp only at hT hB hC hN hS
  have hbf1 : s1.blackFrameTimer = none := by rw [hB, h]
  simp only [turnOffLocalCamera, mBind, hsw]
  simp only [startBlackFrameStep, setIntervalM, bind_eq, mBind, getS, modifyS, emit,
    mPure, pure_eq, hbf1]
  refine ⟨?_, ?_, ?_⟩ <;> simp [mBind, modifyS, emit, mPure, getS, hT, hN, hC]


theorem turnOff_timerAlreadyLive : ∀ (s : MMState) (sid : Option Nat) (id : Nat),
    s.blackFrameTimer = some id →
    ((turnOffLocalCamera sid) s).2.1.timers = s.timers ∧
    ((turnOffLocalCamera sid) s).2.1.blackFrameTimer = some id ∧
    ((turnOffLocalCamera sid) s).2.1.clearedTimers = s.clearedTimers := by
  intro s sid id h
  obtain ⟨u, hok⟩ := ok_turnOffSwapStep sid s
  rcases hsw : turnOffSwapStep sid s with ⟨v, s1, t1⟩
  rw [hsw] at hok
  simp only at hok
  subst hok
  have hf := frame_turnOffSwapStep sid s
  rw [hsw] at hf
  obtain ⟨hT, hB, hC, hN, hS⟩ := hf
  simp only at hT hB hC hN hS
  have hbf1 : s1.blackFrameTimer = some id := by rw [hB, h]
  simp only [turnOffLocalCamera, mBind, hsw]
  simp only [startBlackFrameStep, setIntervalM, bind_eq, mBind, getS, modifyS, emit,
    mPure, pure_eq, hbf1]
  refine ⟨?_, ?_, ?_⟩ <;> simp [mBind, modifyS, emit, mPure, getS, hT, hB, hC, hbf1, h]

theorem turnOn_cancelsOnce : ∀ (s : MMState) (fuel : Nat) (env : Env)
    (sid : Option Nat),
    (∀ id : Nat, s.blackFrameTimer = some id →
      ((turnOnLocalCamera fuel env sid) s).2.1.blackFrameTimer = none ∧
      ((turnOnLocalCamera fuel env sid) s).2.1.timers =
        s.timers.filter (fun t => decide (t.id ≠ id)) ∧
      ((turnOnLocalCamera fuel env sid) s).2.1.clearedTimers =
        s.clearedTimers ++ [id]) ∧
    (s.blackFrameTimer = none →
      ((turnOnLocalCamera fuel env sid) s).2.1.blackFrameTimer = none ∧
      ((turnOnLocalCamera fuel env sid) s).2.1.timers = s.timers ∧
      ((turnOnLocalCamera fuel env sid) s).2.1.clearedTimers = s.clearedTimers) := by
  intro s fuel env sid
  constructor
  · intro id h
    have hclear : clearBlackFrameStep s =
        (.ok (), { s with
          timers := s.timers.filter (fun t => decide (t.id ≠ id))
          clearedTimers := s.clearedTimers ++ [id]
          blackFrameTimer := none }, [.clearTimer id]) := by
      simp [clearBlackFrameStep, clearIntervalM, bind_eq, mBind, getS, modifyS,
        emit, mPure, pure_eq, h]
    have hf := frame_turnOnReacquireStep fuel env sid
      { s with
        timers := s.timers.filter (fun t => decide (t.id ≠ id))
        clearedTimers := s.clearedTimers ++ [id]
        blackFrameTimer := none }
    rcases hre : turnOnReacquireStep fuel env sid
      { s with
        timers := s.timers.filter (fun t => decide (t.id ≠ id))
        clearedTimers := s.clearedTimers ++ [id]
        blackFrameTimer := none } with ⟨v2, s2, t2⟩
    rw [hre] at hf
    obtain ⟨hT, hB, hC, hN, hS⟩ := hf
    simp only at hT hB hC hN hS
    simp only [turnOnLocalCamera, mBind, hclear, hre]
    cases v2 <;> simp_all
  · intro h
    have hclear : clearBlackFrameStep s = (.ok (), s, []) := by
      simp [clearBlackFrameStep, clearIntervalM, bind_eq, mBind, getS, modifyS,
        emit, mPure, pure_eq, h]
    have hf := frame_turnOnReacquireStep fuel env sid s
    rcases hre : turnOnReacquireStep fuel env sid s with ⟨v2, s2, t2⟩
    rw [hre] at hf
    obtain ⟨hT, hB, hC, hN, hS⟩ := hf
    simp only at hT hB hC hN hS
    simp only [turnOnLocalCamera, mBind, hclear, hre]
    cases v2 <;> simp_all

theorem closeStream_keepsBlackFrame : ∀ (s : MMState) (id : Nat),
    s.blackFrameTimer = some id →
    s.soundLevelProviderId ≠ some id →
    (closeStream s).2.1.blackFrameTimer = some id ∧
    ({ id := id, period := 3000, purpose := TimerPurpose.blackFrame } ∈ s.timers →
      { id := id, period := 3000, purpose := TimerPurpose.blackFrame } ∈
        (closeStream s).2.1.timers) := by
  intro s id h hsl
  obtain ⟨u1, hok1⟩ := ok_stopLocalTracksStep s
  rcases h1 : stopLocalTracksStep s with ⟨v1, s1, t1⟩
  rw [h1] at hok1
  simp only at hok1
  subst hok1
  have hf1 := frame_stopLocalTracksStep s
  rw [h1] at hf1
  obtain ⟨hT1, hB1, hC1, hN1, hS1⟩ := hf1
  simp only at hT1 hB1 hC1 hN1 hS1
  obtain ⟨u2, hok2⟩ := ok_stopStrayTracksStep s1
  rcases h2 : stopStrayTracksStep s1 with ⟨v2, s2, t2⟩
  rw [h2] at hok2
  simp only at hok2
  subst hok2
  have hf2 := frame_stopStrayTracksStep s1
  rw [h2] at hf2
  obtain ⟨hT2, hB2, hC2, hN2, hS2⟩ := hf2
  simp only at hT2 hB2 hC2 hN2 hS2
  simp only [closeStream, mBind, h1, h2]
  cases hsp : s2.soundLevelProviderId with
  | none =>
    simp only [clearSoundLevelStep, clearIntervalM, bind_eq, mBind, getS, modifyS,
      emit, mPure, pure_eq, hsp]
    constructor
    · simp [mBind, modifyS, hB2, hB1, h]
    · intro hm
      simp [mBind, modifyS, hT2, hT1]
      exact hm
  | some j =>
    have hj : j ≠ id := by
      intro hji
      rw [hji] at hsp
      rw [hS2, hS1] at hsp
      exact hsl hsp
    simp only [clearSoundLevelStep, clearIntervalM, bind_eq, mBind, getS, modifyS,
      emit, mPure, pure_eq, hsp]
    constructor
    · simp [mBind, modifyS, hB2, hB1, h]
    · intro hm
      try simp only [mBind, modifyS]
      rw [hT2, hT1]
      simp only [List.mem_filter]
      refine ⟨hm, ?_⟩
      simp only [decide_eq_true_eq]
      exact fun hc => hj hc.symm

/-- **C9.**  The blank-frame keepalive lifecycle.  (i) `turnOffLocalCamera`
with no live refresh task starts exactly one recurring task with period
3000 ms and records it in `blackFrameTimer`, cancelling nothing.  (ii) With
a task already live, `turnOffLocalCamera` starts no second task — the
timer table is unchanged — so at most one refresh task ever runs.
(iii) While the camera stays disabled, the other public operations that do
not re-enable it (`muteLocalMic`, `unmuteLocalMic`, `setVolumeLevel`,
`switchAudioInputSource`) leave the timer table untouched, and
`closeStream` — whose only clear targets the sound-level interval, a
distinct timer id — keeps the black-frame task live.  (iv)
`turnOnLocalCamera` cancels the task exactly once: with a live task it
removes precisely that timer and records exactly one `clearInterval` of its
id; with no live task it clears nothing. -/
theorem blackFrameKeepalive :
    (∀ (s : MMState) (sid : Option Nat),
      s.blackFrameTimer = none →
      ((turnOffLocalCamera sid) s).2.1.timers =
        s.timers ++ [{ id := s.nextTimerId, period := 3000,
                       purpose := TimerPurpose.blackFrame }] ∧
      ((turnOffLocalCamera sid) s).2.1.blackFrameTimer = some s.nextTimerId ∧
      ((turnOffLocalCamera sid) s).2.1.clearedTimers = s.clearedTimers) ∧
    (∀ (s : MMState) (sid : Option Nat) (id : Nat),
      s.blackFrameTimer = some id →
      ((turnOffLocalCamera sid) s).2.1.timers = s.timers ∧
      ((turnOffLocalCamera sid) s).2.1.blackFrameTimer = some id ∧
      ((turnOffLocalCamera sid) s).2.1.clearedTimers = s.clearedTimers) ∧
    (∀ s : MMState,
      ((muteLocalMic s).2.1.timers = s.timers ∧
        (muteLocalMic s).2.1.blackFrameTimer = s.blackFrameTimer ∧
        (muteLocalMic s).2.1.clearedTimers = s.clearedTimers) ∧
      ((unmuteLocalMic s).2.1.timers = s.timers ∧
        (unmuteLocalMic s).2.1.blackFrameTimer = s.blackFrameTimer ∧
        (unmuteLocalMic s).2.1.clearedTimers = s.clearedTimers)) ∧
    (∀ (v : ℚ) (s : MMState),
      ((setVolumeLevel v) s).2.1.timers = s.timers ∧
      ((setVolumeLevel v) s).2.1.blackFrameTimer = s.blackFrameTimer ∧
      ((setVolumeLevel v) s).2.1.clearedTimers = s.clearedTimers) ∧
    (∀ (sid devId : Option Nat) (s : MMState),
      ((switchAudioInputSource sid devId) s).2.1.timers = s.timers ∧
      ((switchAudioInputSource sid devId) s).2.1.blackFrameTimer =
        s.blackFrameTimer ∧
      ((switchAudioInputSource sid devId) s).2.1.clearedTimers =
        s.clearedTimers) ∧
    (∀ (s : MMState) (id : Nat),
      s.blackFrameTimer = some id → s.soundLevelProviderId ≠ some id →
      (closeStream s).2.1.blackFrameTimer = some id ∧
      ({ id := id, period := 3000, purpose := TimerPurpose.blackFrame } ∈ s.timers →
        { id := id, period := 3000, purpose := TimerPurpose.blackFrame } ∈
          (closeStream s).2.1.timers)) ∧
    (∀ (s : MMState) (fuel : Nat) (env : Env) (sid : Option Nat),
      (∀ id : Nat, s.blackFrameTimer = some id →
        ((turnOnLocalCamera fuel env sid) s).2.1.blackFrameTimer = none ∧
        ((turnOnLocalCamera fuel env sid) s).2.1.timers =
          s.timers.filter (fun t => decide (t.id ≠ id)) ∧
        ((turnOnLocalCamera fuel env sid) s).2.1.clearedTimers =
          s.clearedTimers ++ [id]) ∧
      (s.blackFrameTimer = none →
        ((turnOnLocalCamera fuel env sid) s).2.1.blackFrameTimer = none ∧
        ((turnOnLocalCamera fuel env sid) s).2.1.timers = s.timers ∧
        ((turnOnLocalCamera fuel env sid) s).2.1.clearedTimers =
          s.clearedTimers)) := by
  refine ⟨turnOff_startsTimer, turnOff_timerAlreadyLive, ?_, ?_, ?_,
    closeStream_keepsBlackFrame, turnOn_cancelsOnce⟩
  · intro s
    exact ⟨⟨(frame_muteLocalMic s).1, (frame_muteLocalMic s).2.1,
      (frame_muteLocalMic s).2.2.1⟩,
      ⟨(frame_unmuteLocalMic s).1, (frame_unmuteLocalMic s).2.1,
      (frame_unmuteLocalMic s).2.2.1⟩⟩
  · intro v s
    exact ⟨(frame_setVolumeLevel v s).1, (frame_setVolumeLevel v s).2.1,
      (frame_setVolumeLevel v s).2.2.1⟩
  · intro sid devId s
    exact ⟨(frame_switchAudioInputSource sid devId s).1,
      (frame_switchAudioInputSource sid devId s).2.1,
      (frame_switchAudioInputSource sid devId s).2.2.1⟩

/-- Witness for **C9** at a concrete input: disabling the camera on `sBase`
starts the 3000 ms task with id 0; re-enabling cancels it, exactly once. -/
theorem blackFrameKeepalive_witness :
    ((turnOffLocalCamera none) sBase).2.1.timers =
      [{ id := 0, period := 3000, purpose := TimerPurpose.blackFrame }] ∧
    ((turnOffLocalCamera none) sBase).2.1.blackFrameTimer = some 0 ∧
    ((turnOnLocalCamera 3 envOk none)
        ((turnOffLocalCamera none) sBase).2.1).2.1.blackFrameTimer = none ∧
    ((turnOnLocalCamera 3 envOk none)
        ((turnOffLocalCamera none) sBase).2.1).2.1.clearedTimers = [0] := by
  have hA := blackFrameKeepalive.1 sBase none rfl
  have hD := (blackFrameKeepalive.2.2.2.2.2.2
    ((turnOffLocalCamera none) sBase).2.1 3 envOk none).1 0 (by rfl)
  exact ⟨hA.1, hA.2.1, hD.1, hD.2.2⟩

end MediaMgr
